import Mathlib

/-!
# GoodAccess Terraform provider: resource handlers

A shallow embedding of the CRUD handlers of `internal/provider` (`system_resource.go`,
`access_card_resource.go`, `relation_ac_s_resource.go`) and the properties the
specification states about them.

Modelling conventions

* A handler is a function from the decoded plan and/or prior state, the resource
  (HTTP client and token) and the state of the remote backend to an `Outcome`:
  the diagnostics it appended, what it did to the response state, the HTTP
  exchanges it performed in order, and the backend state afterwards.
* `req.Plan.Get`, `req.State.Get` and `resp.State.Set` convert between a Terraform
  object of string attributes and a struct of `types.String` fields.  That
  conversion cannot fail, so these calls contribute no diagnostics and the
  `HasError` guards that follow them are never taken.
* A diagnostic carries its severity and summary; the formatted detail text is not
  carried.  Debug printing is not modelled.
* HTTP bodies are represented by what `encoding/json` makes of their bytes.
* `http.NewRequest` fails when `net/url` rejects the URL. Where a handler drops that
  error and then writes a header of the nil request, the outcome is marked `panicked`.
-/

namespace GoodAccess

/-! ## Terraform framework values -/

/-- The framework type `types.String`: null, unknown, or a known string. -/
inductive TFString where
  | null
  | unknown
  | value (s : String)
  deriving DecidableEq, Repr

/-- The method `ValueString`: the known string, or the empty string when null or unknown. -/
def TFString.ValueString : TFString → String
  | .value s => s
  | _ => ""

/-- Severity of a diagnostic. -/
inductive Severity where
  | error
  | warning
  deriving DecidableEq, Repr

/-- One diagnostic: severity and summary. -/
structure Diagnostic where
  severity : Severity
  summary : String
  deriving DecidableEq, Repr

/-- The method `HasError` of a diagnostics list. -/
def HasError (ds : List Diagnostic) : Bool :=
  ds.any (fun d => d.severity == Severity.error)

/-- What a handler did to the response state. -/
inductive StateOp (M : Type) where
  | untouched
  | set (m : M)
  | removed
  deriving DecidableEq, Repr

/-! ## JSON as seen by `encoding/json` -/

/-- A JSON value. Numbers are kept as their literal text. -/
inductive Json where
  | null
  | bool (b : Bool)
  | num (lit : String)
  | str (s : String)
  | arr (items : List Json)
  | obj (members : List (String × Json))

/-- The bytes of an HTTP body, up to what the JSON scanner makes of them. -/
inductive Body where
  /-- Bytes that do not begin with a JSON value (this includes the empty body). -/
  | junk
  /-- Bytes that are exactly one JSON value. -/
  | doc (j : Json)
  /-- Bytes that are a JSON value followed by further non-space bytes. -/
  | docThenJunk (j : Json)

/-- A Go `error` value, by its message. -/
abbrev GoError := String

/-- The function `foldRune` with which `encoding/json` folds the names of object members:
a rune goes to the smallest rune that is equal to it under Unicode simple case folding. A
lower-case ASCII letter goes to its upper-case letter; the long s (U+017F) goes to `S` and
the Kelvin sign (U+212A) to `K`, and these two are the only runes outside ASCII with an
ASCII letter among their equals. Every other rune outside ASCII is kept as it is here: its
fold is outside ASCII as well, and the tags of the fields of this program are ASCII, so it
matches none of them either way. -/
def foldRune (c : Char) : Char :=
  if c = Char.ofNat 0x17F then 'S'
  else if c = Char.ofNat 0x212A then 'K'
  else c.toUpper

/-- Whether an object member named `key` is assigned to the struct field tagged `field`:
an exact match, or else equal names after folding every rune, as `encoding/json` does for a
struct whose folded tags are distinct. -/
def keyMatches (field key : String) : Bool :=
  key == field || key.data.map foldRune == field.data.map foldRune

/-- The values of the members of an object that go to the struct field `field`, in order. -/
def fieldValues (field : String) (members : List (String × Json)) : List Json :=
  (members.filter (fun kv => keyMatches field kv.1)).map Prod.snd

/-- Decoding successive values into one Go `string` field that starts empty: a JSON string
is stored, `null` leaves the field alone, any other value raises a type error and leaves
the field alone. The flag records whether a type error was raised. -/
def decodeStringField (vs : List Json) : String × Bool :=
  vs.foldl
    (fun acc v =>
      match v with
      | .str s => (s, acc.2)
      | .null => acc
      | _ => (acc.1, true))
    ("", false)

/-- The call `json.Unmarshal(bytes, &x)` for a struct `x` at its zero value, given the decoder
of a JSON value into that struct. The value is what `x` holds afterwards. -/
def unmarshalStruct {α : Type} (zero : α) (dec : Json → α × Bool) : Body → α × Option GoError
  | .doc j => ((dec j).1, if (dec j).2 then some "json: cannot unmarshal" else none)
  | _ => (zero, some "invalid character")

/-- The call `json.NewDecoder(r).Decode(&x)` for a struct `x` at its zero value: the first
JSON value of the stream is decoded, what follows it is not looked at. -/
def decoderDecode {α : Type} (zero : α) (dec : Json → α × Bool) : Body → α × Option GoError
  | .doc j => ((dec j).1, if (dec j).2 then some "json: cannot unmarshal" else none)
  | .docThenJunk j => ((dec j).1, if (dec j).2 then some "json: cannot unmarshal" else none)
  | .junk => (zero, some "invalid character")

/-- The call `json.Unmarshal(bytes, &xs)` for a nil slice `xs` of structs. Every element of a
JSON array yields one element of the slice, a zero one when it could not be decoded. -/
def unmarshalSlice {α : Type} (dec : Json → α × Bool) : Body → List α × Option GoError
  | .doc (.arr items) =>
    ((items.map dec).map Prod.fst,
      if (items.map dec).any Prod.snd then some "json: cannot unmarshal" else none)
  | .doc .null => ([], none)
  | .doc _ => ([], some "json: cannot unmarshal")
  | _ => ([], some "invalid character")

/-! ## HTTP -/

/-- An outgoing request. The body is the JSON document that was marshalled, if any. -/
structure HttpRequest where
  Method : String
  URL : String
  Header : List (String × String)
  Body : Option Json

/-- The method `Header.Add`. -/
@[simp]
def HttpRequest.HeaderAdd (q : HttpRequest) (k v : String) : HttpRequest :=
  { q with Header := q.Header ++ [(k, v)] }

/-- A response that was received. -/
structure HttpResponse where
  StatusCode : Nat
  Body : Body

/-- What `client.Do` returns: a transport error or a response. -/
abbrev HttpResult := Except GoError HttpResponse

/-- The Go HTTP machinery a resource talks through, against a remote backend whose state has
type `σ`: whether `net/url` accepts a raw URL (otherwise `http.NewRequest` fails), and the
round trip of one request. -/
structure Client (σ : Type) where
  urlParses : String → Bool
  Do : σ → HttpRequest → HttpResult × σ

/-- The function `http.NewRequest` for the methods used here. -/
@[simp]
def NewRequest {σ : Type} (c : Client σ) (method url : String) (body : Option Json) :
    Except GoError HttpRequest :=
  if c.urlParses url then
    .ok { Method := method, URL := url, Header := [], Body := body }
  else
    .error "parse: invalid URL"

/-- The base of every endpoint. -/
def baseURL : String := "https://integration.goodaccess.com/api/v1/"

/-! ## Handler responses -/

/-- Everything a handler invocation leaves behind. -/
structure Outcome (M σ : Type) where
  Diagnostics : List Diagnostic
  State : StateOp M
  exchanges : List (HttpRequest × HttpResult)
  backend : σ
  panicked : Bool

/-- The response a handler starts from. -/
@[simp]
def Outcome.start {M σ : Type} (w : σ) : Outcome M σ :=
  { Diagnostics := [], State := .untouched, exchanges := [], backend := w, panicked := false }

/-- The call `resp.Diagnostics.AddError`. -/
@[simp]
def Outcome.AddError {M σ : Type} (o : Outcome M σ) (summary : String) : Outcome M σ :=
  { o with Diagnostics := o.Diagnostics ++ [⟨.error, summary⟩] }

/-- The call `resp.Diagnostics.AddWarning`. -/
@[simp]
def Outcome.AddWarning {M σ : Type} (o : Outcome M σ) (summary : String) : Outcome M σ :=
  { o with Diagnostics := o.Diagnostics ++ [⟨.warning, summary⟩] }

/-- The call `resp.State.Set`. -/
@[simp]
def Outcome.Set {M σ : Type} (o : Outcome M σ) (m : M) : Outcome M σ :=
  { o with State := .set m }

/-- The call `resp.State.RemoveResource`. -/
@[simp]
def Outcome.RemoveResource {M σ : Type} (o : Outcome M σ) : Outcome M σ :=
  { o with State := .removed }

/-- A nil-pointer dereference: the handler does not return. -/
@[simp]
def Outcome.panic {M σ : Type} (o : Outcome M σ) : Outcome M σ :=
  { o with panicked := true }

/-- What the call `r.client.Do(httpReq)` returns, the backend being in the state the
outcome records. -/
@[simp]
def Outcome.result {M σ : Type} (o : Outcome M σ) (c : Client σ) (q : HttpRequest) :
    HttpResult :=
  (c.Do o.backend q).1

/-- The outcome once the call `r.client.Do(httpReq)` has been made: the exchange is recorded
and the backend has moved on. -/
@[simp]
def Outcome.sent {M σ : Type} (o : Outcome M σ) (c : Client σ) (q : HttpRequest) :
    Outcome M σ :=
  { o with exchanges := o.exchanges ++ [(q, (c.Do o.backend q).1)],
           backend := (c.Do o.backend q).2 }

/-- The requests a handler issued, in order. -/
def Outcome.requests {M σ : Type} (o : Outcome M σ) : List HttpRequest :=
  o.exchanges.map Prod.fst

/-! ## relation_ac_s_resource.go -/

/-- The Terraform model of a relation. -/
structure RelationACSTFModel where
  ID : TFString
  AccessCardID : TFString
  SystemID : TFString
  deriving DecidableEq, Repr

/-- The resource: HTTP client and bearer token. -/
structure RelationACSResource (σ : Type) where
  client : Client σ
  token : String

/-- An element of the relations list, as the anonymous struct of `Read` and `Delete`. -/
structure RelationRecord where
  ID : String
  AccessCardID : String
  SystemID : String
  deriving DecidableEq, Repr

/-- Decoding one JSON value into a `RelationRecord` at its zero value. -/
def decodeRelation : Json → RelationRecord × Bool
  | .obj ms =>
    ({ ID := (decodeStringField (fieldValues "id" ms)).1,
       AccessCardID := (decodeStringField (fieldValues "accessCardId" ms)).1,
       SystemID := (decodeStringField (fieldValues "systemId" ms)).1 },
      (decodeStringField (fieldValues "id" ms)).2
        || (decodeStringField (fieldValues "accessCardId" ms)).2
        || (decodeStringField (fieldValues "systemId" ms)).2)
  | .null => ({ ID := "", AccessCardID := "", SystemID := "" }, false)
  | _ => ({ ID := "", AccessCardID := "", SystemID := "" }, true)

/-- The call `json.Unmarshal(bodyBytes, &results)` of `Read` and `Delete`. -/
def unmarshalRelations : Body → List RelationRecord × Option GoError :=
  unmarshalSlice decodeRelation

/-- The loop condition of `Read` and `Delete`: the record has the state's two keys. -/
def relationMatches (state : RelationACSTFModel) (rel : RelationRecord) : Bool :=
  rel.AccessCardID == state.AccessCardID.ValueString
    && rel.SystemID == state.SystemID.ValueString

/-- The handler `RelationACSResource.Create`. -/
def RelationACSResource.Create {σ : Type} (r : RelationACSResource σ) (w : σ)
    (data : RelationACSTFModel) : Outcome RelationACSTFModel σ :=
  let resp : Outcome RelationACSTFModel σ := Outcome.start w
  let url := baseURL ++ "relation/access-card/" ++ data.AccessCardID.ValueString
    ++ "/system/" ++ data.SystemID.ValueString
  match NewRequest r.client "POST" url none with
  | .error _ => resp.AddError "Request Error"
  | .ok httpReq =>
    let httpReq := httpReq.HeaderAdd "Authorization" ("Bearer " ++ r.token)
    let httpReq := httpReq.HeaderAdd "Accept" "*/*"
    let httpResp := resp.result r.client httpReq
    let resp := resp.sent r.client httpReq
    match httpResp with
    | .error _ => resp.AddError "Network Error"
    | .ok httpResp =>
      if httpResp.StatusCode ≠ 200 then
        resp.AddError "API Error"
      else
        -- Synthetic ID: access_card_id + system_id
        let data := { data with
          ID := .value (data.AccessCardID.ValueString ++ ":" ++ data.SystemID.ValueString) }
        resp.Set data

/-- The handler `RelationACSResource.Read`. The loop with `break` is the search for the first
record that satisfies its condition. -/
def RelationACSResource.Read {σ : Type} (r : RelationACSResource σ) (w : σ)
    (state : RelationACSTFModel) : Outcome RelationACSTFModel σ :=
  let resp : Outcome RelationACSTFModel σ := Outcome.start w
  match NewRequest r.client "GET" (baseURL ++ "relations") none with
  | .error _ => resp.panic
  | .ok httpReq =>
    let httpReq := httpReq.HeaderAdd "Authorization" ("Bearer " ++ r.token)
    let httpReq := httpReq.HeaderAdd "Accept" "*/*"
    let httpResp := resp.result r.client httpReq
    let resp := resp.sent r.client httpReq
    match httpResp with
    | .error _ => resp.AddError "API Error"
    | .ok httpResp =>
      if httpResp.StatusCode ≠ 200 then
        resp.AddError "API Error"
      else
        let results := (unmarshalRelations httpResp.Body).1
        match results.find? (relationMatches state) with
        | some rel =>
          resp.Set { state with ID := .value (rel.AccessCardID ++ ":" ++ rel.SystemID) }
        | none => resp.RemoveResource

/-- The handler `RelationACSResource.Delete`. -/
def RelationACSResource.Delete {σ : Type} (r : RelationACSResource σ) (w : σ)
    (state : RelationACSTFModel) : Outcome RelationACSTFModel σ :=
  let resp : Outcome RelationACSTFModel σ := Outcome.start w
  -- Fetch relation ID first
  match NewRequest r.client "GET" (baseURL ++ "relations") none with
  | .error _ => resp.panic
  | .ok httpReq =>
    let httpReq := httpReq.HeaderAdd "Authorization" ("Bearer " ++ r.token)
    let httpReq := httpReq.HeaderAdd "Accept" "*/*"
    let httpResp := resp.result r.client httpReq
    let resp := resp.sent r.client httpReq
    match httpResp with
    | .error _ => resp.AddError "API Error"
    | .ok httpResp =>
      let relations := (unmarshalRelations httpResp.Body).1
      let relationID :=
        match relations.find? (relationMatches state) with
        | some rel => rel.ID
        | none => ""
      if relationID = "" then
        resp.AddWarning "Not Found"
      else
        -- Send DELETE
        match NewRequest r.client "DELETE" (baseURL ++ "relation/" ++ relationID) none with
        | .error _ => resp.panic
        | .ok httpReq =>
          let httpReq := httpReq.HeaderAdd "Authorization" ("Bearer " ++ r.token)
          let httpResp := resp.result r.client httpReq
          let resp := resp.sent r.client httpReq
          match httpResp with
          | .error _ => resp.AddError "API Error"
          | .ok httpResp =>
            if httpResp.StatusCode ≠ 200 then
              resp.AddError "API Error"
            else
              resp

/-- The handler `RelationACSResource.Update`: relations are immutable. -/
def RelationACSResource.Update {σ : Type} (_r : RelationACSResource σ) (w : σ)
    (_plan _state : RelationACSTFModel) : Outcome RelationACSTFModel σ :=
  let resp : Outcome RelationACSTFModel σ := Outcome.start w
  resp.AddWarning "Update Not Supported"

/-! ## system_resource.go -/

/-- The Terraform model of a system. -/
structure SystemModel where
  ID : TFString
  Name : TFString
  Host : TFString
  Uri : TFString
  Port : TFString
  Protocol : TFString
  deriving DecidableEq, Repr

/-- The resource: HTTP client and bearer token. -/
structure SystemResource (σ : Type) where
  client : Client σ
  token : String

/-- The success body of a create call, as the anonymous struct with field `created_id`. -/
structure CreateResult where
  CreatedID : String
  deriving DecidableEq, Repr

/-- Decoding one JSON value into a `CreateResult` at its zero value. -/
def decodeCreateResult : Json → CreateResult × Bool
  | .obj ms =>
    ({ CreatedID := (decodeStringField (fieldValues "created_id" ms)).1 },
      (decodeStringField (fieldValues "created_id" ms)).2)
  | .null => ({ CreatedID := "" }, false)
  | _ => ({ CreatedID := "" }, true)

/-- The call `json.Unmarshal(bodyBytes, &result)` of `SystemResource.Create`. -/
def unmarshalCreateResult : Body → CreateResult × Option GoError :=
  unmarshalStruct { CreatedID := "" } decodeCreateResult

/-- The call `json.NewDecoder(httpResp.Body).Decode(&result)` of `AccessCardResource.Create`. -/
def decodeCreateResultStream : Body → CreateResult × Option GoError :=
  decoderDecode { CreatedID := "" } decodeCreateResult

/-- An element of the systems list, as the anonymous struct of `Read`. -/
structure SystemRecord where
  ID : String
  Name : String
  Host : String
  Uri : String
  Port : String
  Protocol : String
  deriving DecidableEq, Repr

/-- Decoding one JSON value into a `SystemRecord` at its zero value. -/
def decodeSystem : Json → SystemRecord × Bool
  | .obj ms =>
    ({ ID := (decodeStringField (fieldValues "id" ms)).1,
       Name := (decodeStringField (fieldValues "name" ms)).1,
       Host := (decodeStringField (fieldValues "host" ms)).1,
       Uri := (decodeStringField (fieldValues "uri" ms)).1,
       Port := (decodeStringField (fieldValues "port" ms)).1,
       Protocol := (decodeStringField (fieldValues "protocol" ms)).1 },
      (decodeStringField (fieldValues "id" ms)).2
        || (decodeStringField (fieldValues "name" ms)).2
        || (decodeStringField (fieldValues "host" ms)).2
        || (decodeStringField (fieldValues "uri" ms)).2
        || (decodeStringField (fieldValues "port" ms)).2
        || (decodeStringField (fieldValues "protocol" ms)).2)
  | .null => ({ ID := "", Name := "", Host := "", Uri := "", Port := "", Protocol := "" }, false)
  | _ => ({ ID := "", Name := "", Host := "", Uri := "", Port := "", Protocol := "" }, true)

/-- The call `json.Unmarshal(bodyBytes, &systems)` of `SystemResource.Read`. -/
def unmarshalSystems : Body → List SystemRecord × Option GoError :=
  unmarshalSlice decodeSystem

/-- The request payload of `Create` and `Update`, marshalled. `json.Marshal` cannot fail on a
map of strings and writes its keys in sorted order. -/
def systemPayload (m : SystemModel) : Json :=
  .obj [("host", .str m.Host.ValueString),
        ("name", .str m.Name.ValueString),
        ("port", .str m.Port.ValueString),
        ("protocol", .str m.Protocol.ValueString),
        ("uri", .str m.Uri.ValueString)]

/-- The handler `SystemResource.Create`. -/
def SystemResource.Create {σ : Type} (r : SystemResource σ) (w : σ) (data : SystemModel) :
    Outcome SystemModel σ :=
  let resp : Outcome SystemModel σ := Outcome.start w
  let body := systemPayload data
  match NewRequest r.client "POST" (baseURL ++ "system") (some body) with
  | .error _ => resp.AddError "Request Error"
  | .ok httpReq =>
    let httpReq := httpReq.HeaderAdd "Authorization" ("Bearer " ++ r.token)
    let httpReq := httpReq.HeaderAdd "Content-Type" "application/json"
    let httpResp := resp.result r.client httpReq
    let resp := resp.sent r.client httpReq
    match httpResp with
    | .error _ => resp.AddError "Network Error"
    | .ok httpResp =>
      if httpResp.StatusCode ≠ 200 then
        resp.AddError "API Error"
      else
        -- Success case
        let result := (unmarshalCreateResult httpResp.Body).1
        match (unmarshalCreateResult httpResp.Body).2 with
        | some _ => resp.AddError "Parse Error"
        | none =>
          let data := { data with ID := .value result.CreatedID }
          resp.Set data

/-- The handler `SystemResource.Delete`. -/
def SystemResource.Delete {σ : Type} (r : SystemResource σ) (w : σ) (data : SystemModel) :
    Outcome SystemModel σ :=
  let resp : Outcome SystemModel σ := Outcome.start w
  let id := data.ID.ValueString
  if id = "" then
    resp.AddError "Missing ID"
  else
    match NewRequest r.client "DELETE" (baseURL ++ "system/" ++ id) none with
    | .error _ => resp.AddError "Request Error"
    | .ok httpReq =>
      let httpReq := httpReq.HeaderAdd "Authorization" ("Bearer " ++ r.token)
      let httpReq := httpReq.HeaderAdd "Accept" "*/*"
      let httpResp := resp.result r.client httpReq
      let resp := resp.sent r.client httpReq
      match httpResp with
      | .error _ => resp.AddError "Network Error"
      | .ok httpResp =>
        if httpResp.StatusCode ≠ 200 then
          resp.AddError "API Error"
        else
          resp

/-- The handler `SystemResource.Read`. The loop with `break` is the search for the first
element whose id is the state's id. -/
def SystemResource.Read {σ : Type} (r : SystemResource σ) (w : σ) (state : SystemModel) :
    Outcome SystemModel σ :=
  let resp : Outcome SystemModel σ := Outcome.start w
  let id := state.ID.ValueString
  if id = "" then
    resp.AddError "Missing ID"
  else
    -- Fetch all systems
    match NewRequest r.client "GET" (baseURL ++ "systems") none with
    | .error _ => resp.AddError "Request Error"
    | .ok httpReq =>
      let httpReq := httpReq.HeaderAdd "Authorization" ("Bearer " ++ r.token)
      let httpReq := httpReq.HeaderAdd "Accept" "*/*"
      let httpResp := resp.result r.client httpReq
      let resp := resp.sent r.client httpReq
      match httpResp with
      | .error _ => resp.AddError "Network Error"
      | .ok httpResp =>
        if httpResp.StatusCode ≠ 200 then
          resp.AddError "API Error"
        else
          -- Parse the response
          let systems := (unmarshalSystems httpResp.Body).1
          match (unmarshalSystems httpResp.Body).2 with
          | some _ => resp.AddError "Parse Error"
          | none =>
            -- Find the system by ID
            match systems.find? (fun s => s.ID == id) with
            | some s =>
              resp.Set { ID := .value s.ID, Name := .value s.Name, Host := .value s.Host,
                         Uri := .value s.Uri, Port := .value s.Port,
                         Protocol := .value s.Protocol }
            | none => resp.RemoveResource

/-- The handler `SystemResource.Update`. -/
def SystemResource.Update {σ : Type} (r : SystemResource σ) (w : σ)
    (plan state : SystemModel) : Outcome SystemModel σ :=
  let resp : Outcome SystemModel σ := Outcome.start w
  let id := state.ID.ValueString
  if id = "" then
    resp.AddError "Missing ID"
  else
    -- Construct request payload from the planned state
    let body := systemPayload plan
    match NewRequest r.client "PUT" (baseURL ++ "system/" ++ id) (some body) with
    | .error _ => resp.AddError "Request Error"
    | .ok httpReq =>
      let httpReq := httpReq.HeaderAdd "Authorization" ("Bearer " ++ r.token)
      let httpReq := httpReq.HeaderAdd "Content-Type" "application/json"
      let httpReq := httpReq.HeaderAdd "Accept" "*/*"
      let httpResp := resp.result r.client httpReq
      let resp := resp.sent r.client httpReq
      match httpResp with
      | .error _ => resp.AddError "Network Error"
      | .ok httpResp =>
        if httpResp.StatusCode ≠ 200 then
          resp.AddError "API Error"
        else
          -- Save the updated state, preserving the ID
          let plan := { plan with ID := state.ID }
          resp.Set plan

/-! ## access_card_resource.go -/

/-- The Terraform model of an access card. -/
structure AccessCardModel where
  ID : TFString
  Name : TFString
  Description : TFString
  deriving DecidableEq, Repr

/-- The resource: HTTP client and bearer token. -/
structure AccessCardResource (σ : Type) where
  client : Client σ
  token : String

/-- The body of a GET by id, as the anonymous struct of `Read`. -/
structure AccessCardRecord where
  ID : String
  Name : String
  Description : String
  deriving DecidableEq, Repr

/-- Decoding one JSON value into an `AccessCardRecord` at its zero value. -/
def decodeAccessCard : Json → AccessCardRecord × Bool
  | .obj ms =>
    ({ ID := (decodeStringField (fieldValues "id" ms)).1,
       Name := (decodeStringField (fieldValues "name" ms)).1,
       Description := (decodeStringField (fieldValues "description" ms)).1 },
      (decodeStringField (fieldValues "id" ms)).2
        || (decodeStringField (fieldValues "name" ms)).2
        || (decodeStringField (fieldValues "description" ms)).2)
  | .null => ({ ID := "", Name := "", Description := "" }, false)
  | _ => ({ ID := "", Name := "", Description := "" }, true)

/-- The call `json.Unmarshal(bodyBytes, &result)` of `AccessCardResource.Read`. -/
def unmarshalAccessCard : Body → AccessCardRecord × Option GoError :=
  unmarshalStruct { ID := "", Name := "", Description := "" } decodeAccessCard

/-- The request payload of `Create` and `Update`, marshalled with its keys in sorted order. -/
def accessCardPayload (m : AccessCardModel) : Json :=
  .obj [("description", .str m.Description.ValueString),
        ("name", .str m.Name.ValueString)]

/-- The handler `AccessCardResource.Create`. The error of `http.NewRequest` is dropped, so a
failure there leaves a nil request whose header is then written. The error of `Decode` is
dropped as well. -/
def AccessCardResource.Create {σ : Type} (r : AccessCardResource σ) (w : σ)
    (data : AccessCardModel) : Outcome AccessCardModel σ :=
  let resp : Outcome AccessCardModel σ := Outcome.start w
  let body := accessCardPayload data
  match NewRequest r.client "POST" (baseURL ++ "access-card") (some body) with
  | .error _ => resp.panic
  | .ok httpReq =>
    let httpReq := httpReq.HeaderAdd "Authorization" ("Bearer " ++ r.token)
    let httpReq := httpReq.HeaderAdd "Content-Type" "application/json"
    let httpResp := resp.result r.client httpReq
    let resp := resp.sent r.client httpReq
    match httpResp with
    | .error _ => resp.AddError "API Error"
    | .ok httpResp =>
      if httpResp.StatusCode ≠ 200 then
        resp.AddError "API Error"
      else
        let result := (decodeCreateResultStream httpResp.Body).1
        let data := { data with ID := .value result.CreatedID }
        resp.Set data

/-- The handler `AccessCardResource.Read`. -/
def AccessCardResource.Read {σ : Type} (r : AccessCardResource σ) (w : σ)
    (state : AccessCardModel) : Outcome AccessCardModel σ :=
  let resp : Outcome AccessCardModel σ := Outcome.start w
  let id := state.ID.ValueString
  if id = "" then
    resp.AddError "Missing ID"
  else
    match NewRequest r.client "GET" (baseURL ++ "access-card/" ++ id) none with
    | .error _ => resp.AddError "Request Error"
    | .ok httpReq =>
      let httpReq := httpReq.HeaderAdd "Authorization" ("Bearer " ++ r.token)
      let httpReq := httpReq.HeaderAdd "Accept" "*/*"
      let httpResp := resp.result r.client httpReq
      let resp := resp.sent r.client httpReq
      match httpResp with
      | .error _ => resp.AddError "Network Error"
      | .ok httpResp =>
        if httpResp.StatusCode = 404 then
          -- Access card no longer exists: remove from state
          resp.RemoveResource
        else if httpResp.StatusCode ≠ 200 then
          resp.AddError "API Error"
        else
          -- Parse response
          let result := (unmarshalAccessCard httpResp.Body).1
          match (unmarshalAccessCard httpResp.Body).2 with
          | some _ => resp.AddError "Parse Error"
          | none =>
            resp.Set { ID := .value result.ID, Name := .value result.Name,
                       Description := .value result.Description }

/-- The handler `AccessCardResource.Update`. -/
def AccessCardResource.Update {σ : Type} (r : AccessCardResource σ) (w : σ)
    (plan state : AccessCardModel) : Outcome AccessCardModel σ :=
  let resp : Outcome AccessCardModel σ := Outcome.start w
  let id := state.ID.ValueString
  if id = "" then
    resp.AddError "Missing ID"
  else
    let body := accessCardPayload plan
    match NewRequest r.client "PUT" (baseURL ++ "access-card/" ++ id) (some body) with
    | .error _ => resp.AddError "Request Error"
    | .ok httpReq =>
      let httpReq := httpReq.HeaderAdd "Authorization" ("Bearer " ++ r.token)
      let httpReq := httpReq.HeaderAdd "Content-Type" "application/json"
      let httpResp := resp.result r.client httpReq
      let resp := resp.sent r.client httpReq
      match httpResp with
      | .error _ => resp.AddError "Network Error"
      | .ok httpResp =>
        if httpResp.StatusCode ≠ 200 then
          resp.AddError "API Error"
        else
          -- Update state, preserving the ID
          let plan := { plan with ID := state.ID }
          resp.Set plan

/-- The handler `AccessCardResource.Delete`. -/
def AccessCardResource.Delete {σ : Type} (r : AccessCardResource σ) (w : σ)
    (state : AccessCardModel) : Outcome AccessCardModel σ :=
  let resp : Outcome AccessCardModel σ := Outcome.start w
  let id := state.ID.ValueString
  if id = "" then
    resp.AddError "Missing ID"
  else
    match NewRequest r.client "DELETE" (baseURL ++ "access-card/" ++ id) none with
    | .error _ => resp.AddError "Request Error"
    | .ok httpReq =>
      let httpReq := httpReq.HeaderAdd "Authorization" ("Bearer " ++ r.token)
      let httpResp := resp.result r.client httpReq
      let resp := resp.sent r.client httpReq
      match httpResp with
      | .error _ => resp.AddError "Network Error"
      | .ok httpResp =>
        if httpResp.StatusCode ≠ 200 then
          resp.AddError "API Error"
        else
          resp

/-! ## The requests the handlers build -/

/-- The request of `RelationACSResource.Create`. -/
def RelationACSResource.createRequest {σ : Type} (r : RelationACSResource σ)
    (data : RelationACSTFModel) : HttpRequest :=
  { Method := "POST",
    URL := baseURL ++ "relation/access-card/" ++ data.AccessCardID.ValueString
      ++ "/system/" ++ data.SystemID.ValueString,
    Header := [("Authorization", "Bearer " ++ r.token), ("Accept", "*/*")],
    Body := none }

/-- The list lookup of `RelationACSResource.Read` and `RelationACSResource.Delete`. -/
def RelationACSResource.listRequest {σ : Type} (r : RelationACSResource σ) : HttpRequest :=
  { Method := "GET",
    URL := baseURL ++ "relations",
    Header := [("Authorization", "Bearer " ++ r.token), ("Accept", "*/*")],
    Body := none }

/-- The second request of `RelationACSResource.Delete`, for the resolved relation id. -/
def RelationACSResource.deleteRequest {σ : Type} (r : RelationACSResource σ)
    (relationID : String) : HttpRequest :=
  { Method := "DELETE",
    URL := baseURL ++ "relation/" ++ relationID,
    Header := [("Authorization", "Bearer " ++ r.token)],
    Body := none }

/-- The relation id that `RelationACSResource.Delete` resolves from the body of the list
lookup: the id of the first record with the state's keys, or the empty string. -/
def RelationACSResource.resolveID (state : RelationACSTFModel) (body : Body) : String :=
  match ((unmarshalRelations body).1).find? (relationMatches state) with
  | some rel => rel.ID
  | none => ""

/-- The request of `SystemResource.Create`. -/
def SystemResource.createRequest {σ : Type} (r : SystemResource σ) (data : SystemModel) :
    HttpRequest :=
  { Method := "POST",
    URL := baseURL ++ "system",
    Header := [("Authorization", "Bearer " ++ r.token), ("Content-Type", "application/json")],
    Body := some (systemPayload data) }

/-- The request of `SystemResource.Read`. -/
def SystemResource.readRequest {σ : Type} (r : SystemResource σ) : HttpRequest :=
  { Method := "GET",
    URL := baseURL ++ "systems",
    Header := [("Authorization", "Bearer " ++ r.token), ("Accept", "*/*")],
    Body := none }

/-- The request of `SystemResource.Update`. -/
def SystemResource.updateRequest {σ : Type} (r : SystemResource σ) (plan state : SystemModel) :
    HttpRequest :=
  { Method := "PUT",
    URL := baseURL ++ "system/" ++ state.ID.ValueString,
    Header := [("Authorization", "Bearer " ++ r.token), ("Content-Type", "application/json"),
      ("Accept", "*/*")],
    Body := some (systemPayload plan) }

/-- The request of `SystemResource.Delete`. -/
def SystemResource.deleteRequest {σ : Type} (r : SystemResource σ) (data : SystemModel) :
    HttpRequest :=
  { Method := "DELETE",
    URL := baseURL ++ "system/" ++ data.ID.ValueString,
    Header := [("Authorization", "Bearer " ++ r.token), ("Accept", "*/*")],
    Body := none }

/-- The request of `AccessCardResource.Create`. -/
def AccessCardResource.createRequest {σ : Type} (r : AccessCardResource σ)
    (data : AccessCardModel) : HttpRequest :=
  { Method := "POST",
    URL := baseURL ++ "access-card",
    Header := [("Authorization", "Bearer " ++ r.token), ("Content-Type", "application/json")],
    Body := some (accessCardPayload data) }

/-- The request of `AccessCardResource.Read`. -/
def AccessCardResource.readRequest {σ : Type} (r : AccessCardResource σ)
    (state : AccessCardModel) : HttpRequest :=
  { Method := "GET",
    URL := baseURL ++ "access-card/" ++ state.ID.ValueString,
    Header := [("Authorization", "Bearer " ++ r.token), ("Accept", "*/*")],
    Body := none }

/-- The request of `AccessCardResource.Update`. -/
def AccessCardResource.updateRequest {σ : Type} (r : AccessCardResource σ)
    (plan state : AccessCardModel) : HttpRequest :=
  { Method := "PUT",
    URL := baseURL ++ "access-card/" ++ state.ID.ValueString,
    Header := [("Authorization", "Bearer " ++ r.token), ("Content-Type", "application/json")],
    Body := some (accessCardPayload plan) }

/-- The request of `AccessCardResource.Delete`. -/
def AccessCardResource.deleteRequest {σ : Type} (r : AccessCardResource σ)
    (state : AccessCardModel) : HttpRequest :=
  { Method := "DELETE",
    URL := baseURL ++ "access-card/" ++ state.ID.ValueString,
    Header := [("Authorization", "Bearer " ++ r.token)],
    Body := none }

/-! ## Vocabulary of the specification -/

/-- Whether the response state was neither set nor removed. -/
def StateOp.isUntouched {M : Type} : StateOp M → Bool
  | .untouched => true
  | _ => false

/-- The outcome the specification asks for after a failed call: an error diagnostic was added
and the state was neither set nor removed. -/
def Outcome.refused {M σ : Type} (o : Outcome M σ) : Bool :=
  HasError o.Diagnostics && o.State.isUntouched

/-- The method `Header.Get`: the first value stored under the key. -/
def HttpRequest.HeaderGet (q : HttpRequest) (k : String) : Option String :=
  q.Header.lookup k

/-! ## A mocked backend -/

/-- Modelled from the spec: the state of the mocked backend of the round-trip property, the
records it has stored and a counter from which it makes ids. -/
structure MockBackend where
  systems : List SystemRecord
  cards : List AccessCardRecord
  counter : Nat
  deriving Repr

/-- Modelled from the spec: the id the mocked backend gives to the next record it stores. -/
def MockBackend.nextID (b : MockBackend) : String :=
  "id-" ++ toString b.counter

/-- Modelled from the spec: a stored system as the mocked backend writes it in a list. -/
def SystemRecord.toJson (s : SystemRecord) : Json :=
  .obj [("id", .str s.ID), ("name", .str s.Name), ("host", .str s.Host), ("uri", .str s.Uri),
        ("port", .str s.Port), ("protocol", .str s.Protocol)]

/-- Modelled from the spec: a stored access card as the mocked backend writes it. -/
def AccessCardRecord.toJson (c : AccessCardRecord) : Json :=
  .obj [("id", .str c.ID), ("name", .str c.Name), ("description", .str c.Description)]

/-- Modelled from the spec: the mocked backend. A POST to a collection endpoint stores the
record of the body under a new id, replacing what was stored under that id, and answers 200
with that id as `created_id`; a GET of the systems list answers 200 with every stored system;
a GET of an access card answers 200 with the stored card of that id, or 404. -/
def MockBackend.Do (b : MockBackend) (q : HttpRequest) : HttpResult × MockBackend :=
  if q.Method = "POST" ∧ q.URL = baseURL ++ "system" then
    match q.Body with
    | some j =>
      (.ok ⟨200, .doc (.obj [("created_id", .str b.nextID)])⟩,
        { b with
          systems := { (decodeSystem j).1 with ID := b.nextID }
            :: b.systems.filter (fun s => s.ID != b.nextID),
          counter := b.counter + 1 })
    | none => (.ok ⟨400, .junk⟩, b)
  else if q.Method = "POST" ∧ q.URL = baseURL ++ "access-card" then
    match q.Body with
    | some j =>
      (.ok ⟨200, .doc (.obj [("created_id", .str b.nextID)])⟩,
        { b with
          cards := { (decodeAccessCard j).1 with ID := b.nextID }
            :: b.cards.filter (fun c => c.ID != b.nextID),
          counter := b.counter + 1 })
    | none => (.ok ⟨400, .junk⟩, b)
  else if q.Method = "GET" ∧ q.URL = baseURL ++ "systems" then
    (.ok ⟨200, .doc (.arr (b.systems.map SystemRecord.toJson))⟩, b)
  else if q.Method = "GET" then
    match b.cards.find? (fun c => q.URL == baseURL ++ "access-card/" ++ c.ID) with
    | some c => (.ok ⟨200, .doc c.toJson⟩, b)
    | none => (.ok ⟨404, .junk⟩, b)
  else
    (.ok ⟨404, .junk⟩, b)

/-- Modelled from the spec: the HTTP client that talks to the mocked backend. -/
def mockClient : Client MockBackend :=
  { urlParses := fun _ => true, Do := MockBackend.Do }

/-- A system resource that talks to the mocked backend. -/
def SystemResource.mock (token : String) : SystemResource MockBackend :=
  { client := mockClient, token := token }

/-- An access card resource that talks to the mocked backend. -/
def AccessCardResource.mock (token : String) : AccessCardResource MockBackend :=
  { client := mockClient, token := token }

/-- The mocked backend before anything was stored. -/
def MockBackend.empty : MockBackend :=
  { systems := [], cards := [], counter := 0 }

/-! ## Concrete backends -/

/-- A client whose URLs all parse and that answers every request with the same response. -/
def Client.always (rs : HttpResponse) : Client Unit :=
  { urlParses := fun _ => true, Do := fun w _ => (.ok rs, w) }

/-- A system resource over `Client.always`, with token `tok`. -/
def SystemResource.always (rs : HttpResponse) : SystemResource Unit :=
  { client := Client.always rs, token := "tok" }

/-- An access card resource over `Client.always`, with token `tok`. -/
def AccessCardResource.always (rs : HttpResponse) : AccessCardResource Unit :=
  { client := Client.always rs, token := "tok" }

/-- A relation resource over `Client.always`, with token `tok`. -/
def RelationACSResource.always (rs : HttpResponse) : RelationACSResource Unit :=
  { client := Client.always rs, token := "tok" }

/-- A system as it stands in state. -/
def sampleSystem : SystemModel :=
  { ID := .value "1", Name := .value "n", Host := .value "h", Uri := .value "u",
    Port := .value "443", Protocol := .value "https" }

/-- A plan for a system. It carries an id of its own. -/
def sampleSystemPlan : SystemModel :=
  { ID := .value "plan-id", Name := .value "n2", Host := .value "h2", Uri := .value "u2",
    Port := .value "80", Protocol := .value "http" }

/-- An access card as it stands in state. -/
def sampleCard : AccessCardModel :=
  { ID := .value "7", Name := .value "n", Description := .value "d" }

/-- A plan for an access card, its optional description left out. -/
def sampleCardPlan : AccessCardModel :=
  { ID := .unknown, Name := .value "n2", Description := .null }

/-- A relation as it stands in state. -/
def sampleRelation : RelationACSTFModel :=
  { ID := .value "ac1:sys1", AccessCardID := .value "ac1", SystemID := .value "sys1" }

/-- A relations list with one record, for the pair of `sampleRelation`, whose own id is 77. -/
def sampleRelationsBody : Body :=
  .doc (.arr [.obj [("id", .str "77"), ("accessCardId", .str "ac1"),
    ("systemId", .str "sys1")]])

/-- A relations list with one record, for another system. -/
def otherRelationsBody : Body :=
  .doc (.arr [.obj [("id", .str "78"), ("accessCardId", .str "ac1"),
    ("systemId", .str "sys2")]])

/-- The success body of a create call that assigned the id 42. -/
def createdBody : Body :=
  .doc (.obj [("created_id", .str "42")])

/-- A systems list with one element, whose id is 2. -/
def otherSystemsBody : Body :=
  .doc (.arr [.obj [("id", .str "2"), ("name", .str "other"), ("host", .str "h"),
    ("uri", .str "u"), ("port", .str "443"), ("protocol", .str "https")]])

/-! ## The synthetic relation id -/

/-- The call `fmt.Sprintf("%s:%s", accessCardID, systemID)` with which `Create` and `Read` of
a relation make the id they write to state. -/
def syntheticID (accessCardID systemID : String) : String :=
  accessCardID ++ ":" ++ systemID

/-- A relations list with two records for the pair of `sampleRelation`: the first has an empty
id, the second has the id 78. -/
def emptyIDRelationsBody : Body :=
  .doc (.arr [.obj [("id", .str ""), ("accessCardId", .str "ac1"), ("systemId", .str "sys1")],
    .obj [("id", .str "78"), ("accessCardId", .str "ac1"), ("systemId", .str "sys1")]])

/-- A relations list with three records: one for another system, then two for the pair of
`sampleRelation`, with the ids 77 and 79 in that order. -/
def mixedRelationsBody : Body :=
  .doc (.arr [.obj [("id", .str "78"), ("accessCardId", .str "ac1"), ("systemId", .str "sys2")],
    .obj [("id", .str "77"), ("accessCardId", .str "ac1"), ("systemId", .str "sys1")],
    .obj [("id", .str "79"), ("accessCardId", .str "ac1"), ("systemId", .str "sys1")]])

/-- The member name `systemId` written with a long s (U+017F) for its first letter. -/
def longSSystemId : String :=
  String.mk [Char.ofNat 0x17F, 'y', 's', 't', 'e', 'm', 'I', 'd']

/-- A relations list with one record for the pair of `sampleRelation`, whose id is 77 and
whose system id stands under the name `longSSystemId`. -/
def longSRelationsBody : Body :=
  .doc (.arr [.obj [("id", .str "77"), ("accessCardId", .str "ac1"),
    (longSSystemId, .str "sys1")]])

/-! ## The paths through each handler -/

/-- Every run of `RelationACSResource.Create` takes one of four paths. -/
theorem relationCreate_cases {σ : Type} (r : RelationACSResource σ) (w : σ)
    (data : RelationACSTFModel) (q : HttpRequest) (hq : q = r.createRequest data)
    (out : HttpResult × σ) (hout : out = r.client.Do w q) :
    (r.client.urlParses q.URL = false ∧
      r.Create w data = ⟨[⟨.error, "Request Error"⟩], .untouched, [], w, false⟩)
    ∨ (∃ e, out.1 = .error e ∧
      r.Create w data = ⟨[⟨.error, "Network Error"⟩], .untouched, [(q, .error e)], out.2, false⟩)
    ∨ (∃ rs, out.1 = .ok rs ∧ rs.StatusCode ≠ 200 ∧
      r.Create w data = ⟨[⟨.error, "API Error"⟩], .untouched, [(q, .ok rs)], out.2, false⟩)
    ∨ (∃ rs, out.1 = .ok rs ∧ rs.StatusCode = 200 ∧
      r.Create w data = ⟨[], .set { data with
          ID := .value (data.AccessCardID.ValueString ++ ":" ++ data.SystemID.ValueString) },
        [(q, .ok rs)], out.2, false⟩) := by
  subst hq hout
  by_cases hu : r.client.urlParses (r.createRequest data).URL = true
  · cases hd : (r.client.Do w (r.createRequest data)).1 with
    | error e =>
      simp only [RelationACSResource.createRequest] at hu hd
      simp [RelationACSResource.Create, RelationACSResource.createRequest, hu, hd]
    | ok rs =>
      simp only [RelationACSResource.createRequest] at hu hd
      by_cases hs : rs.StatusCode = 200 <;> simp [RelationACSResource.Create, RelationACSResource.createRequest, hu, hd, hs]
  · simp only [RelationACSResource.createRequest] at hu
    simp [RelationACSResource.Create, RelationACSResource.createRequest, hu]

/-- Every run of `RelationACSResource.Read` takes one of five paths. -/
theorem relationRead_cases {σ : Type} (r : RelationACSResource σ) (w : σ)
    (state : RelationACSTFModel) (q : HttpRequest) (hq : q = r.listRequest)
    (out : HttpResult × σ) (hout : out = r.client.Do w q) :
    (r.client.urlParses q.URL = false ∧
      r.Read w state = ⟨[], .untouched, [], w, true⟩)
    ∨ (∃ e, out.1 = .error e ∧
      r.Read w state = ⟨[⟨.error, "API Error"⟩], .untouched, [(q, .error e)], out.2, false⟩)
    ∨ (∃ rs, out.1 = .ok rs ∧ rs.StatusCode ≠ 200 ∧
      r.Read w state = ⟨[⟨.error, "API Error"⟩], .untouched, [(q, .ok rs)], out.2, false⟩)
    ∨ (∃ rs rel, out.1 = .ok rs ∧ rs.StatusCode = 200 ∧
      ((unmarshalRelations rs.Body).1).find? (relationMatches state) = some rel ∧
      r.Read w state = ⟨[], .set { state with
          ID := .value (rel.AccessCardID ++ ":" ++ rel.SystemID) },
        [(q, .ok rs)], out.2, false⟩)
    ∨ (∃ rs, out.1 = .ok rs ∧ rs.StatusCode = 200 ∧
      ((unmarshalRelations rs.Body).1).find? (relationMatches state) = none ∧
      r.Read w state = ⟨[], .removed, [(q, .ok rs)], out.2, false⟩) := by
  subst hq hout
  by_cases hu : r.client.urlParses r.listRequest.URL = true
  · cases hd : (r.client.Do w r.listRequest).1 with
    | error e =>
      simp only [RelationACSResource.listRequest] at hu hd
      simp [RelationACSResource.Read, RelationACSResource.listRequest, hu, hd]
    | ok rs =>
      simp only [RelationACSResource.listRequest] at hu hd
      by_cases hs : rs.StatusCode = 200
      · cases hf : ((unmarshalRelations rs.Body).1).find? (relationMatches state) with
        | none =>
          simp [RelationACSResource.Read, RelationACSResource.listRequest, hu, hd, hs, hf]
          simpa using hf
        | some rel => simp [RelationACSResource.Read, RelationACSResource.listRequest, hu, hd, hs, hf]
      · simp [RelationACSResource.Read, RelationACSResource.listRequest, hu, hd, hs]
  · simp only [RelationACSResource.listRequest] at hu
    simp [RelationACSResource.Read, RelationACSResource.listRequest, hu]

/-- Every run of `RelationACSResource.Delete` takes one of seven paths. -/
theorem relationDelete_cases {σ : Type} (r : RelationACSResource σ) (w : σ)
    (state : RelationACSTFModel) (q : HttpRequest) (hq : q = r.listRequest)
    (out : HttpResult × σ) (hout : out = r.client.Do w q) :
    (r.client.urlParses q.URL = false ∧
      r.Delete w state = ⟨[], .untouched, [], w, true⟩)
    ∨ (∃ e, out.1 = .error e ∧
      r.Delete w state = ⟨[⟨.error, "API Error"⟩], .untouched, [(q, .error e)], out.2, false⟩)
    ∨ (∃ rs, out.1 = .ok rs ∧ RelationACSResource.resolveID state rs.Body = "" ∧
      r.Delete w state = ⟨[⟨.warning, "Not Found"⟩], .untouched, [(q, .ok rs)], out.2, false⟩)
    ∨ (∃ rs, out.1 = .ok rs ∧ RelationACSResource.resolveID state rs.Body ≠ "" ∧
      r.client.urlParses (r.deleteRequest (RelationACSResource.resolveID state rs.Body)).URL = false ∧
      r.Delete w state = ⟨[], .untouched, [(q, .ok rs)], out.2, true⟩)
    ∨ (∃ rs e, out.1 = .ok rs ∧ RelationACSResource.resolveID state rs.Body ≠ "" ∧
      (r.client.Do out.2 (r.deleteRequest (RelationACSResource.resolveID state rs.Body))).1 = .error e ∧
      r.Delete w state = ⟨[⟨.error, "API Error"⟩], .untouched,
        [(q, .ok rs), (r.deleteRequest (RelationACSResource.resolveID state rs.Body), .error e)],
        (r.client.Do out.2 (r.deleteRequest (RelationACSResource.resolveID state rs.Body))).2, false⟩)
    ∨ (∃ rs rs2, out.1 = .ok rs ∧ RelationACSResource.resolveID state rs.Body ≠ "" ∧
      (r.client.Do out.2 (r.deleteRequest (RelationACSResource.resolveID state rs.Body))).1 = .ok rs2 ∧
      rs2.StatusCode ≠ 200 ∧
      r.Delete w state = ⟨[⟨.error, "API Error"⟩], .untouched,
        [(q, .ok rs), (r.deleteRequest (RelationACSResource.resolveID state rs.Body), .ok rs2)],
        (r.client.Do out.2 (r.deleteRequest (RelationACSResource.resolveID state rs.Body))).2, false⟩)
    ∨ (∃ rs rs2, out.1 = .ok rs ∧ RelationACSResource.resolveID state rs.Body ≠ "" ∧
      (r.client.Do out.2 (r.deleteRequest (RelationACSResource.resolveID state rs.Body))).1 = .ok rs2 ∧
      rs2.StatusCode = 200 ∧
      r.Delete w state = ⟨[], .untouched,
        [(q, .ok rs), (r.deleteRequest (RelationACSResource.resolveID state rs.Body), .ok rs2)],
        (r.client.Do out.2 (r.deleteRequest (RelationACSResource.resolveID state rs.Body))).2, false⟩) := by
  subst hq hout
  by_cases hu : r.client.urlParses r.listRequest.URL = true
  · cases hd : (r.client.Do w r.listRequest).1 with
    | error e =>
      simp only [RelationACSResource.listRequest] at hu hd
      simp [RelationACSResource.Delete, RelationACSResource.listRequest, hu, hd]
    | ok rs =>
      simp only [RelationACSResource.listRequest] at hu hd
      by_cases hid : RelationACSResource.resolveID state rs.Body = ""
      · have hid2 := hid
        simp only [RelationACSResource.resolveID] at hid2
        simp [RelationACSResource.Delete, RelationACSResource.listRequest, hu, hd, hid, hid2]
      · have hid2 := hid
        simp only [RelationACSResource.resolveID] at hid2
        by_cases hu2 : r.client.urlParses (r.deleteRequest (RelationACSResource.resolveID state rs.Body)).URL = true
        · cases hd2 : (r.client.Do (r.client.Do w r.listRequest).2
              (r.deleteRequest (RelationACSResource.resolveID state rs.Body))).1 with
          | error e =>
            simp only [RelationACSResource.listRequest, RelationACSResource.deleteRequest, RelationACSResource.resolveID] at hu2 hd2
            simp [RelationACSResource.Delete, RelationACSResource.listRequest, RelationACSResource.deleteRequest, RelationACSResource.resolveID, hu, hd, hid2, hu2, hd2]
          | ok rs2 =>
            simp only [RelationACSResource.listRequest, RelationACSResource.deleteRequest, RelationACSResource.resolveID] at hu2 hd2
            by_cases hs : rs2.StatusCode = 200 <;>
              simp [RelationACSResource.Delete, RelationACSResource.listRequest, RelationACSResource.deleteRequest, RelationACSResource.resolveID, hu, hd, hid2, hu2, hd2, hs]
        · simp only [RelationACSResource.deleteRequest, RelationACSResource.resolveID] at hu2
          simp [RelationACSResource.Delete, RelationACSResource.listRequest, RelationACSResource.deleteRequest, RelationACSResource.resolveID, hu, hd, hid2, hu2]
  · simp only [RelationACSResource.listRequest] at hu
    simp [RelationACSResource.Delete, RelationACSResource.listRequest, hu]

/-- Every run of `SystemResource.Create` takes one of five paths. -/
theorem systemCreate_cases {σ : Type} (r : SystemResource σ) (w : σ)
    (data : SystemModel) (q : HttpRequest) (hq : q = r.createRequest data)
    (out : HttpResult × σ) (hout : out = r.client.Do w q) :
    (r.client.urlParses q.URL = false ∧
      r.Create w data = ⟨[⟨.error, "Request Error"⟩], .untouched, [], w, false⟩)
    ∨ (∃ e, out.1 = .error e ∧
      r.Create w data = ⟨[⟨.error, "Network Error"⟩], .untouched, [(q, .error e)], out.2, false⟩)
    ∨ (∃ rs, out.1 = .ok rs ∧ rs.StatusCode ≠ 200 ∧
      r.Create w data = ⟨[⟨.error, "API Error"⟩], .untouched, [(q, .ok rs)], out.2, false⟩)
    ∨ (∃ rs e, out.1 = .ok rs ∧ rs.StatusCode = 200 ∧
      (unmarshalCreateResult rs.Body).2 = some e ∧
      r.Create w data = ⟨[⟨.error, "Parse Error"⟩], .untouched, [(q, .ok rs)], out.2, false⟩)
    ∨ (∃ rs, out.1 = .ok rs ∧ rs.StatusCode = 200 ∧
      (unmarshalCreateResult rs.Body).2 = none ∧
      r.Create w data =
        ⟨[], .set { data with
            ID := .value (unmarshalCreateResult rs.Body).1.CreatedID },
          [(q, .ok rs)], out.2, false⟩) := by
  subst hq hout
  by_cases hu : r.client.urlParses (r.createRequest data).URL = true
  · cases hd : (r.client.Do w (r.createRequest data)).1 with
    | error e =>
      simp only [SystemResource.createRequest] at hu hd
      simp [SystemResource.Create, SystemResource.createRequest, hu, hd]
    | ok rs =>
      simp only [SystemResource.createRequest] at hu hd
      by_cases hs : rs.StatusCode = 200
      · cases hp : (unmarshalCreateResult rs.Body).2 <;>
          simp [SystemResource.Create, SystemResource.createRequest, hu, hd, hs, hp]
      · simp [SystemResource.Create, SystemResource.createRequest, hu, hd, hs]
  · simp only [SystemResource.createRequest] at hu
    simp [SystemResource.Create, SystemResource.createRequest, hu]

/-- Every run of `SystemResource.Delete` takes one of five paths. -/
theorem systemDelete_cases {σ : Type} (r : SystemResource σ) (w : σ)
    (data : SystemModel) (q : HttpRequest) (hq : q = r.deleteRequest data)
    (out : HttpResult × σ) (hout : out = r.client.Do w q) :
    (data.ID.ValueString = "" ∧
      r.Delete w data = ⟨[⟨.error, "Missing ID"⟩], .untouched, [], w, false⟩)
    ∨ (data.ID.ValueString ≠ "" ∧ r.client.urlParses q.URL = false ∧
      r.Delete w data = ⟨[⟨.error, "Request Error"⟩], .untouched, [], w, false⟩)
    ∨ (∃ e, data.ID.ValueString ≠ "" ∧ out.1 = .error e ∧
      r.Delete w data = ⟨[⟨.error, "Network Error"⟩], .untouched, [(q, .error e)], out.2, false⟩)
    ∨ (∃ rs, data.ID.ValueString ≠ "" ∧ out.1 = .ok rs ∧ rs.StatusCode ≠ 200 ∧
      r.Delete w data = ⟨[⟨.error, "API Error"⟩], .untouched, [(q, .ok rs)], out.2, false⟩)
    ∨ (∃ rs, data.ID.ValueString ≠ "" ∧ out.1 = .ok rs ∧ rs.StatusCode = 200 ∧
      r.Delete w data = ⟨[], .untouched, [(q, .ok rs)], out.2, false⟩) := by
  subst hq hout
  by_cases hid : data.ID.ValueString = ""
  · simp [SystemResource.Delete, hid]
  · by_cases hu : r.client.urlParses (r.deleteRequest data).URL = true
    · cases hd : (r.client.Do w (r.deleteRequest data)).1 with
      | error e =>
        simp only [SystemResource.deleteRequest] at hu hd
        simp [SystemResource.Delete, SystemResource.deleteRequest, hid, hu, hd]
      | ok rs =>
        simp only [SystemResource.deleteRequest] at hu hd
        by_cases hs : rs.StatusCode = 200 <;> simp [SystemResource.Delete, SystemResource.deleteRequest, hid, hu, hd, hs]
    · simp only [SystemResource.deleteRequest] at hu
      simp [SystemResource.Delete, SystemResource.deleteRequest, hid, hu]

/-- Every run of `SystemResource.Read` takes one of eight paths. -/
theorem systemRead_cases {σ : Type} (r : SystemResource σ) (w : σ)
    (state : SystemModel) (q : HttpRequest) (hq : q = r.readRequest)
    (out : HttpResult × σ) (hout : out = r.client.Do w q) :
    (state.ID.ValueString = "" ∧
      r.Read w state = ⟨[⟨.error, "Missing ID"⟩], .untouched, [], w, false⟩)
    ∨ (state.ID.ValueString ≠ "" ∧ r.client.urlParses q.URL = false ∧
      r.Read w state = ⟨[⟨.error, "Request Error"⟩], .untouched, [], w, false⟩)
    ∨ (∃ e, state.ID.ValueString ≠ "" ∧ out.1 = .error e ∧
      r.Read w state = ⟨[⟨.error, "Network Error"⟩], .untouched, [(q, .error e)], out.2, false⟩)
    ∨ (∃ rs, state.ID.ValueString ≠ "" ∧ out.1 = .ok rs ∧ rs.StatusCode ≠ 200 ∧
      r.Read w state = ⟨[⟨.error, "API Error"⟩], .untouched, [(q, .ok rs)], out.2, false⟩)
    ∨ (∃ rs e, state.ID.ValueString ≠ "" ∧ out.1 = .ok rs ∧ rs.StatusCode = 200 ∧
      (unmarshalSystems rs.Body).2 = some e ∧
      r.Read w state = ⟨[⟨.error, "Parse Error"⟩], .untouched, [(q, .ok rs)], out.2, false⟩)
    ∨ (∃ rs s, state.ID.ValueString ≠ "" ∧ out.1 = .ok rs ∧ rs.StatusCode = 200 ∧
      (unmarshalSystems rs.Body).2 = none ∧
      ((unmarshalSystems rs.Body).1).find? (fun s => s.ID == state.ID.ValueString)
        = some s ∧
      r.Read w state =
        ⟨[], .set { ID := .value s.ID, Name := .value s.Name, Host := .value s.Host,
                    Uri := .value s.Uri, Port := .value s.Port, Protocol := .value s.Protocol },
          [(q, .ok rs)], out.2, false⟩)
    ∨ (∃ rs, state.ID.ValueString ≠ "" ∧ out.1 = .ok rs ∧ rs.StatusCode = 200 ∧
      (unmarshalSystems rs.Body).2 = none ∧
      ((unmarshalSystems rs.Body).1).find? (fun s => s.ID == state.ID.ValueString)
        = none ∧
      r.Read w state = ⟨[], .removed, [(q, .ok rs)], out.2, false⟩) := by
  subst hq hout
  by_cases hid : state.ID.ValueString = ""
  · simp [SystemResource.Read, hid]
  · by_cases hu : r.client.urlParses r.readRequest.URL = true
    · cases hd : (r.client.Do w r.readRequest).1 with
      | error e =>
        simp only [SystemResource.readRequest] at hu hd
        simp [SystemResource.Read, SystemResource.readRequest, hid, hu, hd]
      | ok rs =>
        simp only [SystemResource.readRequest] at hu hd
        by_cases hs : rs.StatusCode = 200
        · cases hp : (unmarshalSystems rs.Body).2 with
          | some e => simp [SystemResource.Read, SystemResource.readRequest, hid, hu, hd, hs, hp]
          | none =>
            cases hf : ((unmarshalSystems rs.Body).1).find?
                (fun s => s.ID == state.ID.ValueString) with
            | none =>
              simp [SystemResource.Read, SystemResource.readRequest, hid, hu, hd, hs, hp, hf]
              simpa using hf
            | some s => simp [SystemResource.Read, SystemResource.readRequest, hid, hu, hd, hs, hp, hf]
        · simp [SystemResource.Read, SystemResource.readRequest, hid, hu, hd, hs]
    · simp only [SystemResource.readRequest] at hu
      simp [SystemResource.Read, SystemResource.readRequest, hid, hu]

/-- Every run of `SystemResource.Update` takes one of five paths. -/
theorem systemUpdate_cases {σ : Type} (r : SystemResource σ) (w : σ)
    (plan state : SystemModel) (q : HttpRequest) (hq : q = r.updateRequest plan state)
    (out : HttpResult × σ) (hout : out = r.client.Do w q) :
    (state.ID.ValueString = "" ∧
      r.Update w plan state = ⟨[⟨.error, "Missing ID"⟩], .untouched, [], w, false⟩)
    ∨ (state.ID.ValueString ≠ "" ∧ r.client.urlParses q.URL = false ∧
      r.Update w plan state = ⟨[⟨.error, "Request Error"⟩], .untouched, [], w, false⟩)
    ∨ (∃ e, state.ID.ValueString ≠ "" ∧ out.1 = .error e ∧
      r.Update w plan state =
        ⟨[⟨.error, "Network Error"⟩], .untouched, [(q, .error e)], out.2, false⟩)
    ∨ (∃ rs, state.ID.ValueString ≠ "" ∧ out.1 = .ok rs ∧ rs.StatusCode ≠ 200 ∧
      r.Update w plan state =
        ⟨[⟨.error, "API Error"⟩], .untouched, [(q, .ok rs)], out.2, false⟩)
    ∨ (∃ rs, state.ID.ValueString ≠ "" ∧ out.1 = .ok rs ∧ rs.StatusCode = 200 ∧
      r.Update w plan state =
        ⟨[], .set { plan with ID := state.ID }, [(q, .ok rs)], out.2, false⟩) := by
  subst hq hout
  by_cases hid : state.ID.ValueString = ""
  · simp [SystemResource.Update, hid]
  · by_cases hu : r.client.urlParses (r.updateRequest plan state).URL = true
    · cases hd : (r.client.Do w (r.updateRequest plan state)).1 with
      | error e =>
        simp only [SystemResource.updateRequest] at hu hd
        simp [SystemResource.Update, SystemResource.updateRequest, hid, hu, hd]
      | ok rs =>
        simp only [SystemResource.updateRequest] at hu hd
        by_cases hs : rs.StatusCode = 200 <;> simp [SystemResource.Update, SystemResource.updateRequest, hid, hu, hd, hs]
    · simp only [SystemResource.updateRequest] at hu
      simp [SystemResource.Update, SystemResource.updateRequest, hid, hu]

/-- Every run of `AccessCardResource.Create` takes one of four paths. -/
theorem accessCardCreate_cases {σ : Type} (r : AccessCardResource σ) (w : σ)
    (data : AccessCardModel) (q : HttpRequest) (hq : q = r.createRequest data)
    (out : HttpResult × σ) (hout : out = r.client.Do w q) :
    (r.client.urlParses q.URL = false ∧
      r.Create w data = ⟨[], .untouched, [], w, true⟩)
    ∨ (∃ e, out.1 = .error e ∧
      r.Create w data = ⟨[⟨.error, "API Error"⟩], .untouched, [(q, .error e)], out.2, false⟩)
    ∨ (∃ rs, out.1 = .ok rs ∧ rs.StatusCode ≠ 200 ∧
      r.Create w data = ⟨[⟨.error, "API Error"⟩], .untouched, [(q, .ok rs)], out.2, false⟩)
    ∨ (∃ rs, out.1 = .ok rs ∧ rs.StatusCode = 200 ∧
      r.Create w data =
        ⟨[], .set { data with
            ID := .value (decodeCreateResultStream rs.Body).1.CreatedID },
          [(q, .ok rs)], out.2, false⟩) := by
  subst hq hout
  by_cases hu : r.client.urlParses (r.createRequest data).URL = true
  · cases hd : (r.client.Do w (r.createRequest data)).1 with
    | error e =>
      simp only [AccessCardResource.createRequest] at hu hd
      simp [AccessCardResource.Create, AccessCardResource.createRequest, hu, hd]
    | ok rs =>
      simp only [AccessCardResource.createRequest] at hu hd
      by_cases hs : rs.StatusCode = 200 <;> simp [AccessCardResource.Create, AccessCardResource.createRequest, hu, hd, hs]
  · simp only [AccessCardResource.createRequest] at hu
    simp [AccessCardResource.Create, AccessCardResource.createRequest, hu]

/-- Every run of `AccessCardResource.Read` takes one of seven paths. -/
theorem accessCardRead_cases {σ : Type} (r : AccessCardResource σ) (w : σ)
    (state : AccessCardModel) (q : HttpRequest) (hq : q = r.readRequest state)
    (out : HttpResult × σ) (hout : out = r.client.Do w q) :
    (state.ID.ValueString = "" ∧
      r.Read w state = ⟨[⟨.error, "Missing ID"⟩], .untouched, [], w, false⟩)
    ∨ (state.ID.ValueString ≠ "" ∧ r.client.urlParses q.URL = false ∧
      r.Read w state = ⟨[⟨.error, "Request Error"⟩], .untouched, [], w, false⟩)
    ∨ (∃ e, state.ID.ValueString ≠ "" ∧ out.1 = .error e ∧
      r.Read w state = ⟨[⟨.error, "Network Error"⟩], .untouched, [(q, .error e)], out.2, false⟩)
    ∨ (∃ rs, state.ID.ValueString ≠ "" ∧ out.1 = .ok rs ∧ rs.StatusCode = 404 ∧
      r.Read w state = ⟨[], .removed, [(q, .ok rs)], out.2, false⟩)
    ∨ (∃ rs, state.ID.ValueString ≠ "" ∧ out.1 = .ok rs ∧ rs.StatusCode ≠ 404 ∧
      rs.StatusCode ≠ 200 ∧
      r.Read w state = ⟨[⟨.error, "API Error"⟩], .untouched, [(q, .ok rs)], out.2, false⟩)
    ∨ (∃ rs e, state.ID.ValueString ≠ "" ∧ out.1 = .ok rs ∧ rs.StatusCode = 200 ∧
      (unmarshalAccessCard rs.Body).2 = some e ∧
      r.Read w state = ⟨[⟨.error, "Parse Error"⟩], .untouched, [(q, .ok rs)], out.2, false⟩)
    ∨ (∃ rs, state.ID.ValueString ≠ "" ∧ out.1 = .ok rs ∧ rs.StatusCode = 200 ∧
      (unmarshalAccessCard rs.Body).2 = none ∧
      r.Read w state =
        ⟨[], .set { ID := .value (unmarshalAccessCard rs.Body).1.ID,
                    Name := .value (unmarshalAccessCard rs.Body).1.Name,
                    Description := .value (unmarshalAccessCard rs.Body).1.Description },
          [(q, .ok rs)], out.2, false⟩) := by
  subst hq hout
  by_cases hid : state.ID.ValueString = ""
  · simp [AccessCardResource.Read, hid]
  · by_cases hu : r.client.urlParses (r.readRequest state).URL = true
    · cases hd : (r.client.Do w (r.readRequest state)).1 with
      | error e =>
        simp only [AccessCardResource.readRequest] at hu hd
        simp [AccessCardResource.Read, AccessCardResource.readRequest, hid, hu, hd]
      | ok rs =>
        simp only [AccessCardResource.readRequest] at hu hd
        by_cases h404 : rs.StatusCode = 404
        · simp [AccessCardResource.Read, AccessCardResource.readRequest, hid, hu, hd, h404]
        · by_cases hs : rs.StatusCode = 200
          · cases hp : (unmarshalAccessCard rs.Body).2 <;>
              simp [AccessCardResource.Read, AccessCardResource.readRequest, hid, hu, hd, hs, hp]
          · simp [AccessCardResource.Read, AccessCardResource.readRequest, hid, hu, hd, hs, h404]
    · simp only [AccessCardResource.readRequest] at hu
      simp [AccessCardResource.Read, AccessCardResource.readRequest, hid, hu]

/-- Every run of `AccessCardResource.Update` takes one of five paths. -/
theorem accessCardUpdate_cases {σ : Type} (r : AccessCardResource σ) (w : σ)
    (plan state : AccessCardModel) (q : HttpRequest) (hq : q = r.updateRequest plan state)
    (out : HttpResult × σ) (hout : out = r.client.Do w q) :
    (state.ID.ValueString = "" ∧
      r.Update w plan state = ⟨[⟨.error, "Missing ID"⟩], .untouched, [], w, false⟩)
    ∨ (state.ID.ValueString ≠ "" ∧ r.client.urlParses q.URL = false ∧
      r.Update w plan state = ⟨[⟨.error, "Request Error"⟩], .untouched, [], w, false⟩)
    ∨ (∃ e, state.ID.ValueString ≠ "" ∧ out.1 = .error e ∧
      r.Update w plan state =
        ⟨[⟨.error, "Network Error"⟩], .untouched, [(q, .error e)], out.2, false⟩)
    ∨ (∃ rs, state.ID.ValueString ≠ "" ∧ out.1 = .ok rs ∧ rs.StatusCode ≠ 200 ∧
      r.Update w plan state =
        ⟨[⟨.error, "API Error"⟩], .untouched, [(q, .ok rs)], out.2, false⟩)
    ∨ (∃ rs, state.ID.ValueString ≠ "" ∧ out.1 = .ok rs ∧ rs.StatusCode = 200 ∧
      r.Update w plan state =
        ⟨[], .set { plan with ID := state.ID }, [(q, .ok rs)], out.2, false⟩) := by
  subst hq hout
  by_cases hid : state.ID.ValueString = ""
  · simp [AccessCardResource.Update, hid]
  · by_cases hu : r.client.urlParses (r.updateRequest plan state).URL = true
    · cases hd : (r.client.Do w (r.updateRequest plan state)).1 with
      | error e =>
        simp only [AccessCardResource.updateRequest] at hu hd
        simp [AccessCardResource.Update, AccessCardResource.updateRequest, hid, hu, hd]
      | ok rs =>
        simp only [AccessCardResource.updateRequest] at hu hd
        by_cases hs : rs.StatusCode = 200 <;> simp [AccessCardResource.Update, AccessCardResource.updateRequest, hid, hu, hd, hs]
    · simp only [AccessCardResource.updateRequest] at hu
      simp [AccessCardResource.Update, AccessCardResource.updateRequest, hid, hu]

/-- Every run of `AccessCardResource.Delete` takes one of five paths. -/
theorem accessCardDelete_cases {σ : Type} (r : AccessCardResource σ) (w : σ)
    (state : AccessCardModel) (q : HttpRequest) (hq : q = r.deleteRequest state)
    (out : HttpResult × σ) (hout : out = r.client.Do w q) :
    (state.ID.ValueString = "" ∧
      r.Delete w state = ⟨[⟨.error, "Missing ID"⟩], .untouched, [], w, false⟩)
    ∨ (state.ID.ValueString ≠ "" ∧ r.client.urlParses q.URL = false ∧
      r.Delete w state = ⟨[⟨.error, "Request Error"⟩], .untouched, [], w, false⟩)
    ∨ (∃ e, state.ID.ValueString ≠ "" ∧ out.1 = .error e ∧
      r.Delete w state = ⟨[⟨.error, "Network Error"⟩], .untouched, [(q, .error e)], out.2, false⟩)
    ∨ (∃ rs, state.ID.ValueString ≠ "" ∧ out.1 = .ok rs ∧ rs.StatusCode ≠ 200 ∧
      r.Delete w state = ⟨[⟨.error, "API Error"⟩], .untouched, [(q, .ok rs)], out.2, false⟩)
    ∨ (∃ rs, state.ID.ValueString ≠ "" ∧ out.1 = .ok rs ∧ rs.StatusCode = 200 ∧
      r.Delete w state = ⟨[], .untouched, [(q, .ok rs)], out.2, false⟩) := by
  subst hq hout
  by_cases hid : state.ID.ValueString = ""
  · simp [AccessCardResource.Delete, hid]
  · by_cases hu : r.client.urlParses (r.deleteRequest state).URL = true
    · cases hd : (r.client.Do w (r.deleteRequest state)).1 with
      | error e =>
        simp only [AccessCardResource.deleteRequest] at hu hd
        simp [AccessCardResource.Delete, AccessCardResource.deleteRequest, hid, hu, hd]
      | ok rs =>
        simp only [AccessCardResource.deleteRequest] at hu hd
        by_cases hs : rs.StatusCode = 200 <;> simp [AccessCardResource.Delete, AccessCardResource.deleteRequest, hid, hu, hd, hs]
    · simp only [AccessCardResource.deleteRequest] at hu
      simp [AccessCardResource.Delete, AccessCardResource.deleteRequest, hid, hu]

/-! ## Member names under case folding -/

/-- A member name written with a long s goes to the field `systemId`, as it does in
`encoding/json`: the record of `longSRelationsBody` decodes with the system id `sys1`, so
`Read` sets the state and `Delete` sends its DELETE to `relation/77`. -/
theorem long_s_member_name_is_matched :
    keyMatches "systemId" longSSystemId = true
    ∧ (unmarshalRelations longSRelationsBody).1 = [⟨"77", "ac1", "sys1"⟩]
    ∧ ((RelationACSResource.always ⟨200, longSRelationsBody⟩).Read () sampleRelation).State
      = .set ⟨.value "ac1:sys1", .value "ac1", .value "sys1"⟩
    ∧ ((RelationACSResource.always ⟨200, longSRelationsBody⟩).Delete ()
        sampleRelation).requests.map (fun q => (q.Method, q.URL))
      = [("GET", baseURL ++ "relations"), ("DELETE", baseURL ++ "relation/77")] := by
  refine ⟨?_, ?_, ?_, ?_⟩ <;> decide

/-! ## Relation id and relation update -/

/-- C1: the id that `RelationACSResource` writes to state is the access card id, a colon and
the system id. Whenever `Create` or `Read` sets the state its id is that string; `Create`
sets the state when its POST is answered with status 200; `Read` sets it when the list it
fetched with status 200 holds a record with the state's two keys, whatever the id field of
that record is. -/
theorem relation_id_is_concatenation {σ : Type} (r : RelationACSResource σ) (w : σ)
    (data : RelationACSTFModel) :
    (∀ m, (r.Create w data).State = .set m →
      m.ID = .value (data.AccessCardID.ValueString ++ ":" ++ data.SystemID.ValueString))
    ∧ (∀ q rs, (r.Create w data).exchanges = [(q, .ok rs)] → rs.StatusCode = 200 →
      (r.Create w data).State = .set { data with
        ID := .value (data.AccessCardID.ValueString ++ ":" ++ data.SystemID.ValueString) })
    ∧ (∀ m, (r.Read w data).State = .set m →
      m.ID = .value (data.AccessCardID.ValueString ++ ":" ++ data.SystemID.ValueString))
    ∧ (∀ q rs rel, (r.Read w data).exchanges = [(q, .ok rs)] → rs.StatusCode = 200 →
      rel ∈ (unmarshalRelations rs.Body).1 →
      rel.AccessCardID = data.AccessCardID.ValueString →
      rel.SystemID = data.SystemID.ValueString →
      (r.Read w data).State = .set { data with
        ID := .value (data.AccessCardID.ValueString ++ ":" ++ data.SystemID.ValueString) }) := by
  refine ⟨?_, ?_, ?_, ?_⟩
  · intro m hm
    rcases relationCreate_cases r w data _ rfl _ rfl with
      ⟨_, h⟩ | ⟨e, _, h⟩ | ⟨rs, _, _, h⟩ | ⟨rs, _, _, h⟩ <;> rw [h] at hm <;> simp at hm
    rw [← hm]
  · intro q rs hex hs
    rcases relationCreate_cases r w data _ rfl _ rfl with
      ⟨_, h⟩ | ⟨e, _, h⟩ | ⟨rs1, _, hs1, h⟩ | ⟨rs1, _, _, h⟩ <;> rw [h] at hex ⊢ <;> simp at hex
    exact absurd hs (hex.2 ▸ hs1)
  · intro m hm
    rcases relationRead_cases r w data _ rfl _ rfl with
      ⟨_, h⟩ | ⟨e, _, h⟩ | ⟨rs, _, _, h⟩ | ⟨rs, rel, _, _, hf, h⟩ | ⟨rs, _, _, _, h⟩ <;>
      rw [h] at hm <;> simp at hm
    have hrel := List.find?_some hf
    simp only [relationMatches, Bool.and_eq_true, beq_iff_eq] at hrel
    rw [← hm, hrel.1, hrel.2]
  · intro q rs rel hex hs hmem hac hsys
    rcases relationRead_cases r w data _ rfl _ rfl with
      ⟨_, h⟩ | ⟨e, _, h⟩ | ⟨rs1, _, hs1, h⟩ | ⟨rs1, rel1, _, _, hf, h⟩ | ⟨rs1, _, _, hf, h⟩ <;>
      rw [h] at hex ⊢ <;> simp at hex
    · exact absurd hs (hex.2 ▸ hs1)
    · have hrel := List.find?_some hf
      simp only [relationMatches, Bool.and_eq_true, beq_iff_eq] at hrel
      rw [hrel.1, hrel.2]
    · rw [hex.2] at hf
      have hno := List.find?_eq_none.mp hf rel hmem
      simp [relationMatches, hac, hsys] at hno

/-- C2: `RelationACSResource.Update` sends nothing, adds one warning and no error, and leaves
the response state alone, for every plan and prior state. -/
theorem relation_update_only_warns {σ : Type} (r : RelationACSResource σ) (w : σ)
    (plan state : RelationACSTFModel) :
    (r.Update w plan state).exchanges = []
    ∧ (r.Update w plan state).Diagnostics = [⟨.warning, "Update Not Supported"⟩]
    ∧ HasError (r.Update w plan state).Diagnostics = false
    ∧ (r.Update w plan state).State = .untouched
    ∧ (r.Update w plan state).backend = w := by
  simp [RelationACSResource.Update, HasError]

/-- The relations list holds a record for the pair, with an id of its own: `Create` and
`Read` both write the synthetic id. -/
theorem relation_id_is_concatenation_witness :
    ((RelationACSResource.always ⟨200, sampleRelationsBody⟩).Create () sampleRelation).State
      = .set ⟨.value "ac1:sys1", .value "ac1", .value "sys1"⟩
    ∧ ((RelationACSResource.always ⟨200, sampleRelationsBody⟩).Read () sampleRelation).State
      = .set ⟨.value "ac1:sys1", .value "ac1", .value "sys1"⟩ :=
  ⟨(relation_id_is_concatenation (RelationACSResource.always ⟨200, sampleRelationsBody⟩) ()
      sampleRelation).2.1
      ((RelationACSResource.always ⟨200, sampleRelationsBody⟩).createRequest sampleRelation)
      ⟨200, sampleRelationsBody⟩ rfl rfl,
   (relation_id_is_concatenation (RelationACSResource.always ⟨200, sampleRelationsBody⟩) ()
      sampleRelation).2.2.2
      (RelationACSResource.always ⟨200, sampleRelationsBody⟩).listRequest
      ⟨200, sampleRelationsBody⟩ ⟨"77", "ac1", "sys1"⟩ rfl rfl (by decide) rfl rfl⟩

/-! ## Responses other than 200, and resources that are gone -/

/-- C3 as stated fails: the GET of `AccessCardResource.Read` is answered 404, a status other
than 200, and the handler adds no diagnostic and removes the resource from state. -/
theorem access_card_read_404_is_not_refused :
    ((AccessCardResource.always ⟨404, .junk⟩).Read () sampleCard).exchanges.map
        (fun x => x.2.toOption.map (fun rs => rs.StatusCode)) = [some 404]
    ∧ ((AccessCardResource.always ⟨404, .junk⟩).Read () sampleCard).Diagnostics = []
    ∧ ((AccessCardResource.always ⟨404, .junk⟩).Read () sampleCard).State = .removed
    ∧ ((AccessCardResource.always ⟨404, .junk⟩).Read () sampleCard).refused = false := by
  refine ⟨?_, ?_, ?_, ?_⟩ <;> decide

/-- C3 amended: a response whose status is not 200 makes the handler add an error diagnostic
and leave the state untouched, for every handler of the three resources, except that a 404
answer to `AccessCardResource.Read` is set aside, and that for `RelationACSResource.Delete`
the statement is about the answer to its DELETE request only. -/
theorem non_ok_response_is_refused {σ : Type} (sys : SystemResource σ)
    (card : AccessCardResource σ) (rel : RelationACSResource σ) (w : σ)
    (sp ss : SystemModel) (cp cs : AccessCardModel) (rp rst : RelationACSTFModel)
    (q : HttpRequest) (rs : HttpResponse) (hrs : rs.StatusCode ≠ 200) :
    ((q, Except.ok rs) ∈ (sys.Create w sp).exchanges → (sys.Create w sp).refused = true)
    ∧ ((q, Except.ok rs) ∈ (sys.Read w ss).exchanges → (sys.Read w ss).refused = true)
    ∧ ((q, Except.ok rs) ∈ (sys.Update w sp ss).exchanges →
        (sys.Update w sp ss).refused = true)
    ∧ ((q, Except.ok rs) ∈ (sys.Delete w ss).exchanges → (sys.Delete w ss).refused = true)
    ∧ ((q, Except.ok rs) ∈ (card.Create w cp).exchanges → (card.Create w cp).refused = true)
    ∧ ((q, Except.ok rs) ∈ (card.Read w cs).exchanges → rs.StatusCode ≠ 404 →
        (card.Read w cs).refused = true)
    ∧ ((q, Except.ok rs) ∈ (card.Update w cp cs).exchanges →
        (card.Update w cp cs).refused = true)
    ∧ ((q, Except.ok rs) ∈ (card.Delete w cs).exchanges → (card.Delete w cs).refused = true)
    ∧ ((q, Except.ok rs) ∈ (rel.Create w rp).exchanges → (rel.Create w rp).refused = true)
    ∧ ((q, Except.ok rs) ∈ (rel.Read w rst).exchanges → (rel.Read w rst).refused = true)
    ∧ ((q, Except.ok rs) ∈ (rel.Update w rp rst).exchanges →
        (rel.Update w rp rst).refused = true)
    ∧ ((q, Except.ok rs) ∈ (rel.Delete w rst).exchanges → q.Method = "DELETE" →
        (rel.Delete w rst).refused = true) := by
  refine ⟨?_, ?_, ?_, ?_, ?_, ?_, ?_, ?_, ?_, ?_, ?_, ?_⟩
  · intro hm
    rcases systemCreate_cases sys w sp _ rfl _ rfl with
      ⟨_, h⟩ | ⟨e, _, h⟩ | ⟨rs1, _, _, h⟩ | ⟨rs1, e, _, _, _, h⟩ | ⟨rs1, _, _, _, h⟩ <;>
      rw [h] at hm ⊢ <;> simp [Outcome.refused, HasError, StateOp.isUntouched] at hm ⊢
    all_goals simp_all
  · intro hm
    rcases systemRead_cases sys w ss _ rfl _ rfl with
      ⟨_, h⟩ | ⟨_, _, h⟩ | ⟨e, _, _, h⟩ | ⟨rs1, _, _, _, h⟩ | ⟨rs1, e, _, _, _, _, h⟩
        | ⟨rs1, s, _, _, _, _, _, h⟩ | ⟨rs1, _, _, _, _, _, h⟩ <;>
      rw [h] at hm ⊢ <;> simp [Outcome.refused, HasError, StateOp.isUntouched] at hm ⊢
    all_goals simp_all
  · intro hm
    rcases systemUpdate_cases sys w sp ss _ rfl _ rfl with
      ⟨_, h⟩ | ⟨_, _, h⟩ | ⟨e, _, _, h⟩ | ⟨rs1, _, _, _, h⟩ | ⟨rs1, _, _, _, h⟩ <;>
      rw [h] at hm ⊢ <;> simp [Outcome.refused, HasError, StateOp.isUntouched] at hm ⊢
    all_goals simp_all
  · intro hm
    rcases systemDelete_cases sys w ss _ rfl _ rfl with
      ⟨_, h⟩ | ⟨_, _, h⟩ | ⟨e, _, _, h⟩ | ⟨rs1, _, _, _, h⟩ | ⟨rs1, _, _, _, h⟩ <;>
      rw [h] at hm ⊢ <;> simp [Outcome.refused, HasError, StateOp.isUntouched] at hm ⊢
    all_goals simp_all
  · intro hm
    rcases accessCardCreate_cases card w cp _ rfl _ rfl with
      ⟨_, h⟩ | ⟨e, _, h⟩ | ⟨rs1, _, _, h⟩ | ⟨rs1, _, _, h⟩ <;>
      rw [h] at hm ⊢ <;> simp [Outcome.refused, HasError, StateOp.isUntouched] at hm ⊢
    all_goals simp_all
  · intro hm h404
    rcases accessCardRead_cases card w cs _ rfl _ rfl with
      ⟨_, h⟩ | ⟨_, _, h⟩ | ⟨e, _, _, h⟩ | ⟨rs1, _, _, _, h⟩ | ⟨rs1, _, _, _, _, h⟩
        | ⟨rs1, e, _, _, _, _, h⟩ | ⟨rs1, _, _, _, _, h⟩ <;>
      rw [h] at hm ⊢ <;> simp [Outcome.refused, HasError, StateOp.isUntouched] at hm ⊢
    all_goals simp_all
  · intro hm
    rcases accessCardUpdate_cases card w cp cs _ rfl _ rfl with
      ⟨_, h⟩ | ⟨_, _, h⟩ | ⟨e, _, _, h⟩ | ⟨rs1, _, _, _, h⟩ | ⟨rs1, _, _, _, h⟩ <;>
      rw [h] at hm ⊢ <;> simp [Outcome.refused, HasError, StateOp.isUntouched] at hm ⊢
    all_goals simp_all
  · intro hm
    rcases accessCardDelete_cases card w cs _ rfl _ rfl with
      ⟨_, h⟩ | ⟨_, _, h⟩ | ⟨e, _, _, h⟩ | ⟨rs1, _, _, _, h⟩ | ⟨rs1, _, _, _, h⟩ <;>
      rw [h] at hm ⊢ <;> simp [Outcome.refused, HasError, StateOp.isUntouched] at hm ⊢
    all_goals simp_all
  · intro hm
    rcases relationCreate_cases rel w rp _ rfl _ rfl with
      ⟨_, h⟩ | ⟨e, _, h⟩ | ⟨rs1, _, _, h⟩ | ⟨rs1, _, _, h⟩ <;>
      rw [h] at hm ⊢ <;> simp [Outcome.refused, HasError, StateOp.isUntouched] at hm ⊢
    all_goals simp_all
  · intro hm
    rcases relationRead_cases rel w rst _ rfl _ rfl with
      ⟨_, h⟩ | ⟨e, _, h⟩ | ⟨rs1, _, _, h⟩ | ⟨rs1, x, _, _, _, h⟩ | ⟨rs1, _, _, _, h⟩ <;>
      rw [h] at hm ⊢ <;> simp [Outcome.refused, HasError, StateOp.isUntouched] at hm ⊢
    all_goals simp_all
  · intro hm
    simp [RelationACSResource.Update] at hm
  · intro hm hdel
    rcases relationDelete_cases rel w rst _ rfl _ rfl with
      ⟨_, h⟩ | ⟨e, _, h⟩ | ⟨rs1, _, _, h⟩ | ⟨rs1, _, _, _, h⟩ | ⟨rs1, e, _, _, _, h⟩
        | ⟨rs1, rs2, _, _, _, _, h⟩ | ⟨rs1, rs2, _, _, _, _, h⟩ <;>
      rw [h] at hm ⊢ <;> simp [Outcome.refused, HasError, StateOp.isUntouched] at hm ⊢
    all_goals rcases hm with hm | hm <;> simp_all [RelationACSResource.listRequest]

/-- A backend that answers 500: `SystemResource.Create` and `AccessCardResource.Delete` are
both refused. -/
theorem non_ok_response_is_refused_witness :
    (500 : Nat) ≠ 200
    ∧ ((SystemResource.always ⟨500, .junk⟩).Create () sampleSystemPlan).refused = true
    ∧ ((AccessCardResource.always ⟨500, .junk⟩).Delete () sampleCard).refused = true :=
  ⟨by decide,
   (non_ok_response_is_refused (SystemResource.always ⟨500, .junk⟩)
      (AccessCardResource.always ⟨500, .junk⟩) (RelationACSResource.always ⟨500, .junk⟩) ()
      sampleSystemPlan sampleSystem sampleCardPlan sampleCard sampleRelation sampleRelation
      ((SystemResource.always ⟨500, .junk⟩).createRequest sampleSystemPlan)
      ⟨500, .junk⟩ (by decide)).1 (List.Mem.head _),
   (non_ok_response_is_refused (SystemResource.always ⟨500, .junk⟩)
      (AccessCardResource.always ⟨500, .junk⟩) (RelationACSResource.always ⟨500, .junk⟩) ()
      sampleSystemPlan sampleSystem sampleCardPlan sampleCard sampleRelation sampleRelation
      ((AccessCardResource.always ⟨500, .junk⟩).deleteRequest sampleCard)
      ⟨500, .junk⟩ (by decide)).2.2.2.2.2.2.2.1 (List.Mem.head _)⟩

/-- C4: `Read` of a resource that is gone remotely removes it from state and adds no error.
For an access card that is a 404 answer to the GET by id; for a system, a list answered
with 200 that decodes and in which no element has the state's id; for a relation, a list
answered with 200 in which no record has both the state's access card id and system id. -/
theorem read_of_missing_resource_removes_state {σ : Type} (sys : SystemResource σ)
    (card : AccessCardResource σ) (rel : RelationACSResource σ) (w : σ)
    (ss : SystemModel) (cs : AccessCardModel) (rst : RelationACSTFModel) :
    (∀ q rs, (card.Read w cs).exchanges = [(q, .ok rs)] → rs.StatusCode = 404 →
      (card.Read w cs).State = .removed ∧ HasError (card.Read w cs).Diagnostics = false)
    ∧ (∀ q rs, (sys.Read w ss).exchanges = [(q, .ok rs)] → rs.StatusCode = 200 →
      (unmarshalSystems rs.Body).2 = none →
      (∀ s ∈ (unmarshalSystems rs.Body).1, s.ID ≠ ss.ID.ValueString) →
      (sys.Read w ss).State = .removed ∧ HasError (sys.Read w ss).Diagnostics = false)
    ∧ (∀ q rs, (rel.Read w rst).exchanges = [(q, .ok rs)] → rs.StatusCode = 200 →
      (∀ x ∈ (unmarshalRelations rs.Body).1,
        ¬ (x.AccessCardID = rst.AccessCardID.ValueString
            ∧ x.SystemID = rst.SystemID.ValueString)) →
      (rel.Read w rst).State = .removed ∧ HasError (rel.Read w rst).Diagnostics = false) := by
  refine ⟨?_, ?_, ?_⟩
  · intro q rs hex h404
    rcases accessCardRead_cases card w cs _ rfl _ rfl with
      ⟨_, h⟩ | ⟨_, _, h⟩ | ⟨e, _, _, h⟩ | ⟨rs1, _, _, _, h⟩ | ⟨rs1, _, _, _, _, h⟩
        | ⟨rs1, e, _, _, _, _, h⟩ | ⟨rs1, _, _, _, _, h⟩ <;>
      rw [h] at hex ⊢ <;> simp [HasError] at hex ⊢
    all_goals simp_all
  · intro q rs hex h200 hdec hno
    rcases systemRead_cases sys w ss _ rfl _ rfl with
      ⟨_, h⟩ | ⟨_, _, h⟩ | ⟨e, _, _, h⟩ | ⟨rs1, _, _, _, h⟩ | ⟨rs1, e, _, _, _, _, h⟩
        | ⟨rs1, s, _, _, _, _, hf, h⟩ | ⟨rs1, _, _, _, _, _, h⟩ <;>
      rw [h] at hex ⊢ <;> simp [HasError] at hex ⊢
    · simp_all
    · simp_all
    · rw [hex.2] at hf
      have hs := List.find?_some hf
      have hmem := List.mem_of_find?_eq_some hf
      simp only [beq_iff_eq] at hs
      exact hno s hmem hs
  · intro q rs hex h200 hno
    rcases relationRead_cases rel w rst _ rfl _ rfl with
      ⟨_, h⟩ | ⟨e, _, h⟩ | ⟨rs1, _, _, h⟩ | ⟨rs1, x, _, _, hf, h⟩ | ⟨rs1, _, _, _, h⟩ <;>
      rw [h] at hex ⊢ <;> simp [HasError] at hex ⊢
    · simp_all
    · rw [hex.2] at hf
      have hs := List.find?_some hf
      have hmem := List.mem_of_find?_eq_some hf
      simp only [relationMatches, Bool.and_eq_true, beq_iff_eq] at hs
      exact hno x hmem hs

/-- Concrete runs of the three cases of C4: a 404 for the card, a systems list and a
relations list that hold other records only. -/
theorem read_of_missing_resource_removes_state_witness :
    ((AccessCardResource.always ⟨404, .junk⟩).Read () sampleCard).State = .removed
    ∧ ((SystemResource.always ⟨200, otherSystemsBody⟩).Read () sampleSystem).State = .removed
    ∧ ((RelationACSResource.always ⟨200, otherRelationsBody⟩).Read () sampleRelation).State
      = .removed :=
  ⟨((read_of_missing_resource_removes_state (SystemResource.always ⟨200, otherSystemsBody⟩)
      (AccessCardResource.always ⟨404, .junk⟩)
      (RelationACSResource.always ⟨200, otherRelationsBody⟩) ()
      sampleSystem sampleCard sampleRelation).1
      ((AccessCardResource.always ⟨404, .junk⟩).readRequest sampleCard) ⟨404, .junk⟩
      rfl rfl).1,
   ((read_of_missing_resource_removes_state (SystemResource.always ⟨200, otherSystemsBody⟩)
      (AccessCardResource.always ⟨404, .junk⟩)
      (RelationACSResource.always ⟨200, otherRelationsBody⟩) ()
      sampleSystem sampleCard sampleRelation).2.1
      (SystemResource.always ⟨200, otherSystemsBody⟩).readRequest ⟨200, otherSystemsBody⟩
      rfl rfl (by decide) (by decide)).1,
   ((read_of_missing_resource_removes_state (SystemResource.always ⟨200, otherSystemsBody⟩)
      (AccessCardResource.always ⟨404, .junk⟩)
      (RelationACSResource.always ⟨200, otherRelationsBody⟩) ()
      sampleSystem sampleCard sampleRelation).2.2
      (RelationACSResource.always ⟨200, otherRelationsBody⟩).listRequest
      ⟨200, otherRelationsBody⟩ rfl rfl (by decide)).1⟩

/-- C5: when the PUT of `SystemResource.Update` or of `AccessCardResource.Update` is answered
with status 200, the prior state having a non-empty id, the state is set to a model whose id
is the id of the prior state and whose other fields are those of the plan. -/
theorem update_preserves_id {σ : Type} (sys : SystemResource σ) (card : AccessCardResource σ)
    (w : σ) (sp ss : SystemModel) (cp cs : AccessCardModel) :
    (∀ q rs, ss.ID.ValueString ≠ "" → (sys.Update w sp ss).exchanges = [(q, .ok rs)] →
      rs.StatusCode = 200 →
      ∃ m, (sys.Update w sp ss).State = .set m ∧ m.ID = ss.ID ∧ m.Name = sp.Name
        ∧ m.Host = sp.Host ∧ m.Uri = sp.Uri ∧ m.Port = sp.Port ∧ m.Protocol = sp.Protocol)
    ∧ (∀ q rs, cs.ID.ValueString ≠ "" → (card.Update w cp cs).exchanges = [(q, .ok rs)] →
      rs.StatusCode = 200 →
      ∃ m, (card.Update w cp cs).State = .set m ∧ m.ID = cs.ID ∧ m.Name = cp.Name
        ∧ m.Description = cp.Description) := by
  refine ⟨?_, ?_⟩
  · intro q rs _ hex h200
    rcases systemUpdate_cases sys w sp ss _ rfl _ rfl with
      ⟨_, h⟩ | ⟨_, _, h⟩ | ⟨e, _, _, h⟩ | ⟨rs1, _, _, _, h⟩ | ⟨rs1, _, _, _, h⟩ <;>
      rw [h] at hex ⊢ <;> simp at hex ⊢
    simp_all
  · intro q rs _ hex h200
    rcases accessCardUpdate_cases card w cp cs _ rfl _ rfl with
      ⟨_, h⟩ | ⟨_, _, h⟩ | ⟨e, _, _, h⟩ | ⟨rs1, _, _, _, h⟩ | ⟨rs1, _, _, _, h⟩ <;>
      rw [h] at hex ⊢ <;> simp at hex ⊢
    simp_all

/-- A plan that carries an id of its own: after a PUT answered 200 the state is set and has
the id of the prior state. -/
theorem update_preserves_id_witness :
    sampleSystem.ID.ValueString ≠ ""
    ∧ (∃ m, ((SystemResource.always ⟨200, .junk⟩).Update () sampleSystemPlan sampleSystem).State
        = .set m ∧ m.ID = .value "1" ∧ m.Name = .value "n2")
    ∧ (∃ m, ((AccessCardResource.always ⟨200, .junk⟩).Update () sampleCardPlan sampleCard).State
        = .set m ∧ m.ID = .value "7" ∧ m.Description = .null) := by
  refine ⟨by decide, ?_, ?_⟩
  · obtain ⟨m, hm, h1, h2, _⟩ :=
      (update_preserves_id (SystemResource.always ⟨200, .junk⟩)
        (AccessCardResource.always ⟨200, .junk⟩) ()
        sampleSystemPlan sampleSystem sampleCardPlan sampleCard).1
        ((SystemResource.always ⟨200, .junk⟩).updateRequest sampleSystemPlan sampleSystem)
        ⟨200, .junk⟩ (by decide) rfl rfl
    exact ⟨m, hm, h1, h2⟩
  · obtain ⟨m, hm, h1, _, h3⟩ :=
      (update_preserves_id (SystemResource.always ⟨200, .junk⟩)
        (AccessCardResource.always ⟨200, .junk⟩) ()
        sampleSystemPlan sampleSystem sampleCardPlan sampleCard).2
        ((AccessCardResource.always ⟨200, .junk⟩).updateRequest sampleCardPlan sampleCard)
        ⟨200, .junk⟩ (by decide) rfl rfl
    exact ⟨m, hm, h1, h3⟩

/-! ## Create followed by Read against the mocked backend -/

/-- The ids of the mocked backend are not empty. -/
theorem MockBackend.nextID_ne_empty (b : MockBackend) : b.nextID ≠ "" := by
  intro h
  have h1 := congrArg String.data h
  simp [MockBackend.nextID] at h1

/-- The URL of an access card is not the URL of the systems list. -/
theorem cardURL_ne_systemsURL (x : String) :
    baseURL ++ "access-card/" ++ x ≠ baseURL ++ "systems" := by
  intro h
  have h1 := congrArg String.data h
  simp only [String.data_append, List.append_assoc] at h1
  have h2 := List.append_cancel_left h1
  simp at h2

/-- Decoding a system that the mocked backend wrote gives that system back. -/
theorem decodeSystem_toJson (s : SystemRecord) : decodeSystem s.toJson = (s, false) := by
  rfl

/-- Decoding an access card that the mocked backend wrote gives that card back. -/
theorem decodeAccessCard_toJson (c : AccessCardRecord) :
    decodeAccessCard c.toJson = (c, false) := by
  rfl

/-- Decoding the marshalled payload of a system plan. -/
theorem decodeSystem_systemPayload (m : SystemModel) :
    (decodeSystem (systemPayload m)).1
      = { ID := "", Name := m.Name.ValueString, Host := m.Host.ValueString,
          Uri := m.Uri.ValueString, Port := m.Port.ValueString,
          Protocol := m.Protocol.ValueString } := by
  rfl

/-- Decoding the marshalled payload of an access card plan. -/
theorem decodeAccessCard_accessCardPayload (m : AccessCardModel) :
    (decodeAccessCard (accessCardPayload m)).1
      = { ID := "", Name := m.Name.ValueString,
          Description := m.Description.ValueString } := by
  rfl

/-- Decoding the success body of the mocked backend. -/
theorem decodeCreateResult_created (id : String) :
    decodeCreateResult (.obj [("created_id", .str id)]) = ({ CreatedID := id }, false) := by
  rfl

/-- Decoding the systems list of the mocked backend. -/
theorem unmarshalSystems_list (l : List SystemRecord) :
    unmarshalSystems (.doc (.arr (l.map SystemRecord.toJson))) = (l, none) := by
  simp [unmarshalSystems, unmarshalSlice, List.map_map, Function.comp_def, decodeSystem_toJson]

/-- `SystemResource.Create` against the mocked backend. -/
theorem systemCreate_mock (tok : String) (b : MockBackend) (sp : SystemModel) :
    (SystemResource.mock tok).Create b sp
      = ⟨[], .set { sp with ID := .value b.nextID },
         [((SystemResource.mock tok).createRequest sp,
           .ok ⟨200, .doc (.obj [("created_id", .str b.nextID)])⟩)],
         { b with
           systems := { ID := b.nextID, Name := sp.Name.ValueString, Host := sp.Host.ValueString,
                        Uri := sp.Uri.ValueString, Port := sp.Port.ValueString,
                        Protocol := sp.Protocol.ValueString }
             :: b.systems.filter (fun s => s.ID != b.nextID),
           counter := b.counter + 1 }, false⟩ := by
  simp [SystemResource.Create, SystemResource.mock, SystemResource.createRequest, mockClient,
    MockBackend.Do, unmarshalCreateResult, unmarshalStruct, decodeCreateResult_created,
    decodeSystem_systemPayload]

/-- `SystemResource.Read` against the mocked backend, of a system whose record is the first
one stored. -/
theorem systemRead_mock (tok : String) (b : MockBackend) (s : SystemRecord)
    (rest : List SystemRecord) (hb : b.systems = s :: rest) (st : SystemModel)
    (hid : st.ID.ValueString = s.ID) (hne : s.ID ≠ "") :
    ((SystemResource.mock tok).Read b st).State
      = .set { ID := .value s.ID, Name := .value s.Name, Host := .value s.Host,
               Uri := .value s.Uri, Port := .value s.Port, Protocol := .value s.Protocol } := by
  have hl := unmarshalSystems_list (s :: rest)
  simp only [List.map_cons] at hl
  simp [SystemResource.Read, SystemResource.mock, mockClient, MockBackend.Do, hid, hne, hl, hb]

/-- `AccessCardResource.Create` against the mocked backend. -/
theorem accessCardCreate_mock (tok : String) (b : MockBackend) (cp : AccessCardModel) :
    (AccessCardResource.mock tok).Create b cp
      = ⟨[], .set { cp with ID := .value b.nextID },
         [((AccessCardResource.mock tok).createRequest cp,
           .ok ⟨200, .doc (.obj [("created_id", .str b.nextID)])⟩)],
         { b with
           cards := { ID := b.nextID, Name := cp.Name.ValueString,
                      Description := cp.Description.ValueString }
             :: b.cards.filter (fun c => c.ID != b.nextID),
           counter := b.counter + 1 }, false⟩ := by
  have h : baseURL ++ "access-card" ≠ baseURL ++ "system" := by
    intro h
    have h1 := congrArg String.data h
    simp only [String.data_append] at h1
    have h2 := List.append_cancel_left h1
    simp at h2
  simp [AccessCardResource.Create, AccessCardResource.mock, AccessCardResource.createRequest,
    mockClient, MockBackend.Do, decodeCreateResultStream, decoderDecode,
    decodeCreateResult_created, decodeAccessCard_accessCardPayload, h]

/-- `AccessCardResource.Read` against the mocked backend, of a card whose record is the first
one stored. -/
theorem accessCardRead_mock (tok : String) (b : MockBackend) (c : AccessCardRecord)
    (rest : List AccessCardRecord) (hb : b.cards = c :: rest) (st : AccessCardModel)
    (hid : st.ID.ValueString = c.ID) (hne : c.ID ≠ "") :
    ((AccessCardResource.mock tok).Read b st).State
      = .set { ID := .value c.ID, Name := .value c.Name,
               Description := .value c.Description } := by
  simp [AccessCardResource.Read, AccessCardResource.mock, mockClient, MockBackend.Do, hid, hne,
    hb, cardURL_ne_systemsURL, unmarshalAccessCard, unmarshalStruct, decodeAccessCard_toJson]

/-- C6 as stated fails: for an access card plan whose optional description is null, `Create`
followed by `Read` against the mocked backend leaves the description in state equal to the
empty string, which is not the null that the plan submitted. -/
theorem round_trip_turns_null_description_into_empty :
    sampleCardPlan.Description = .null
    ∧ ((AccessCardResource.mock "tok").Create MockBackend.empty sampleCardPlan).State
      = .set ⟨.value "id-0", .value "n2", .null⟩
    ∧ ((AccessCardResource.mock "tok").Read
        ((AccessCardResource.mock "tok").Create MockBackend.empty sampleCardPlan).backend
        ⟨.value "id-0", .value "n2", .null⟩).State
      = .set ⟨.value "id-0", .value "n2", .value ""⟩
    ∧ TFString.value "" ≠ sampleCardPlan.Description := by
  refine ⟨rfl, ?_, ?_, ?_⟩ <;> decide

/-- C6 amended: against the mocked backend, `Create` sets the state and `Read` of that state
sets it again with every non-id field equal to the known string that was submitted for it,
that is `StringValue` of the `ValueString` of the plan's field. For a field that the plan
gives as a known string this is the plan's value; for a null field it is the empty string.
This holds for every system plan and every access card plan, from every state of the mock. -/
theorem create_then_read_returns_submitted_strings (tok : String) (b : MockBackend)
    (sp : SystemModel) (cp : AccessCardModel) :
    (∃ m1 m2, ((SystemResource.mock tok).Create b sp).State = .set m1
      ∧ ((SystemResource.mock tok).Read ((SystemResource.mock tok).Create b sp).backend m1).State
        = .set m2
      ∧ m2.Name = .value sp.Name.ValueString ∧ m2.Host = .value sp.Host.ValueString
      ∧ m2.Uri = .value sp.Uri.ValueString ∧ m2.Port = .value sp.Port.ValueString
      ∧ m2.Protocol = .value sp.Protocol.ValueString)
    ∧ (∃ m1 m2, ((AccessCardResource.mock tok).Create b cp).State = .set m1
      ∧ ((AccessCardResource.mock tok).Read
          ((AccessCardResource.mock tok).Create b cp).backend m1).State = .set m2
      ∧ m2.Name = .value cp.Name.ValueString
      ∧ m2.Description = .value cp.Description.ValueString)
    ∧ (∀ s, TFString.value (TFString.value s).ValueString = .value s)
    ∧ TFString.value TFString.null.ValueString = .value "" := by
  refine ⟨?_, ?_, fun _ => rfl, rfl⟩
  · refine ⟨{ sp with ID := .value b.nextID },
      { ID := .value b.nextID, Name := .value sp.Name.ValueString,
        Host := .value sp.Host.ValueString, Uri := .value sp.Uri.ValueString,
        Port := .value sp.Port.ValueString, Protocol := .value sp.Protocol.ValueString },
      by rw [systemCreate_mock], ?_, rfl, rfl, rfl, rfl, rfl⟩
    rw [systemCreate_mock]
    exact systemRead_mock tok _
      { ID := b.nextID, Name := sp.Name.ValueString, Host := sp.Host.ValueString,
        Uri := sp.Uri.ValueString, Port := sp.Port.ValueString,
        Protocol := sp.Protocol.ValueString }
      _ rfl _ rfl b.nextID_ne_empty
  · refine ⟨{ cp with ID := .value b.nextID },
      { ID := .value b.nextID, Name := .value cp.Name.ValueString,
        Description := .value cp.Description.ValueString },
      by rw [accessCardCreate_mock], ?_, rfl, rfl⟩
    rw [accessCardCreate_mock]
    exact accessCardRead_mock tok _
      { ID := b.nextID, Name := cp.Name.ValueString,
        Description := cp.Description.ValueString }
      _ rfl _ rfl b.nextID_ne_empty

/-! ## Delete of a missing resource, malformed bodies, create -/

/-- When no record of the list has the state's two keys, `Delete` resolves no relation id. -/
theorem resolveID_of_no_match (state : RelationACSTFModel) (body : Body)
    (h : ∀ x ∈ (unmarshalRelations body).1,
      ¬ (x.AccessCardID = state.AccessCardID.ValueString
          ∧ x.SystemID = state.SystemID.ValueString)) :
    RelationACSResource.resolveID state body = "" := by
  have hf : ((unmarshalRelations body).1).find? (relationMatches state) = none := by
    rw [List.find?_eq_none]
    intro x hx
    simpa [relationMatches] using h x hx
  simp [RelationACSResource.resolveID, hf]

/-- C7: only relations tolerate a resource that is already missing on delete. When the list
that `RelationACSResource.Delete` fetched holds no record with the state's two keys, the
handler adds one warning and no error and sends nothing after the list lookup, so no DELETE.
When the DELETE of `SystemResource.Delete` or of `AccessCardResource.Delete` is answered 404,
the handler adds an error diagnostic. -/
theorem only_relation_delete_tolerates_missing {σ : Type} (sys : SystemResource σ)
    (card : AccessCardResource σ) (rel : RelationACSResource σ) (w : σ)
    (ss : SystemModel) (cs : AccessCardModel) (rst : RelationACSTFModel) :
    (∀ q rs rest, (rel.Delete w rst).exchanges = (q, .ok rs) :: rest →
      (∀ x ∈ (unmarshalRelations rs.Body).1,
        ¬ (x.AccessCardID = rst.AccessCardID.ValueString
            ∧ x.SystemID = rst.SystemID.ValueString)) →
      (rel.Delete w rst).Diagnostics = [⟨.warning, "Not Found"⟩]
        ∧ HasError (rel.Delete w rst).Diagnostics = false
        ∧ rest = []
        ∧ ∀ x ∈ (rel.Delete w rst).requests, x.Method ≠ "DELETE")
    ∧ (∀ q rs, (sys.Delete w ss).exchanges = [(q, .ok rs)] → rs.StatusCode = 404 →
      HasError (sys.Delete w ss).Diagnostics = true)
    ∧ (∀ q rs, (card.Delete w cs).exchanges = [(q, .ok rs)] → rs.StatusCode = 404 →
      HasError (card.Delete w cs).Diagnostics = true) := by
  refine ⟨?_, ?_, ?_⟩
  · intro q rs rest hex hno
    have hres := resolveID_of_no_match rst rs.Body hno
    rcases relationDelete_cases rel w rst _ rfl _ rfl with
      ⟨_, h⟩ | ⟨e, _, h⟩ | ⟨rs1, _, _, h⟩ | ⟨rs1, _, hne, _, h⟩ | ⟨rs1, e, _, hne, _, h⟩
        | ⟨rs1, rs2, _, hne, _, _, h⟩ | ⟨rs1, rs2, _, hne, _, _, h⟩ <;>
      rw [h] at hex ⊢ <;>
      simp [HasError, Outcome.requests, RelationACSResource.listRequest] at hex ⊢
    · exact hex.2
    all_goals exact hne (by rw [hex.1.2]; exact hres)
  · intro q rs hex h404
    rcases systemDelete_cases sys w ss _ rfl _ rfl with
      ⟨_, h⟩ | ⟨_, _, h⟩ | ⟨e, _, _, h⟩ | ⟨rs1, _, _, _, h⟩ | ⟨rs1, _, _, _, h⟩ <;>
      rw [h] at hex ⊢ <;> simp [HasError] at hex ⊢
    simp_all
  · intro q rs hex h404
    rcases accessCardDelete_cases card w cs _ rfl _ rfl with
      ⟨_, h⟩ | ⟨_, _, h⟩ | ⟨e, _, _, h⟩ | ⟨rs1, _, _, _, h⟩ | ⟨rs1, _, _, _, h⟩ <;>
      rw [h] at hex ⊢ <;> simp [HasError] at hex ⊢
    simp_all

/-- Concrete runs of C7: a relations list without the pair, and 404 answers to the DELETE of
a system and of an access card. -/
theorem only_relation_delete_tolerates_missing_witness :
    ((RelationACSResource.always ⟨200, otherRelationsBody⟩).Delete () sampleRelation).Diagnostics
      = [⟨.warning, "Not Found"⟩]
    ∧ HasError ((SystemResource.always ⟨404, .junk⟩).Delete () sampleSystem).Diagnostics = true
    ∧ HasError ((AccessCardResource.always ⟨404, .junk⟩).Delete () sampleCard).Diagnostics
      = true :=
  ⟨((only_relation_delete_tolerates_missing (SystemResource.always ⟨404, .junk⟩)
      (AccessCardResource.always ⟨404, .junk⟩)
      (RelationACSResource.always ⟨200, otherRelationsBody⟩) ()
      sampleSystem sampleCard sampleRelation).1
      (RelationACSResource.always ⟨200, otherRelationsBody⟩).listRequest
      ⟨200, otherRelationsBody⟩ [] rfl (by decide)).1,
   (only_relation_delete_tolerates_missing (SystemResource.always ⟨404, .junk⟩)
      (AccessCardResource.always ⟨404, .junk⟩)
      (RelationACSResource.always ⟨200, otherRelationsBody⟩) ()
      sampleSystem sampleCard sampleRelation).2.1
      ((SystemResource.always ⟨404, .junk⟩).deleteRequest sampleSystem) ⟨404, .junk⟩ rfl rfl,
   (only_relation_delete_tolerates_missing (SystemResource.always ⟨404, .junk⟩)
      (AccessCardResource.always ⟨404, .junk⟩)
      (RelationACSResource.always ⟨200, otherRelationsBody⟩) ()
      sampleSystem sampleCard sampleRelation).2.2
      ((AccessCardResource.always ⟨404, .junk⟩).deleteRequest sampleCard) ⟨404, .junk⟩
      rfl rfl⟩

/-- C8, the code at the failing input: the backend answers 200 with a body that is not
JSON. `RelationACSResource.Read` adds no diagnostic and removes the resource from state;
`RelationACSResource.Delete` adds a warning and no error; `AccessCardResource.Create` adds no
diagnostic and sets the state with an empty id. `SystemResource.Create`, on the same answer,
adds the error `Parse Error` and leaves the state untouched. -/
theorem malformed_body_is_not_reported :
    ((RelationACSResource.always ⟨200, .junk⟩).Read () sampleRelation).Diagnostics = []
    ∧ ((RelationACSResource.always ⟨200, .junk⟩).Read () sampleRelation).State = .removed
    ∧ ((RelationACSResource.always ⟨200, .junk⟩).Delete () sampleRelation).Diagnostics
      = [⟨.warning, "Not Found"⟩]
    ∧ HasError ((RelationACSResource.always ⟨200, .junk⟩).Delete () sampleRelation).Diagnostics
      = false
    ∧ ((AccessCardResource.always ⟨200, .junk⟩).Create () sampleCardPlan).Diagnostics = []
    ∧ ((AccessCardResource.always ⟨200, .junk⟩).Create () sampleCardPlan).State
      = .set ⟨.value "", .value "n2", .null⟩
    ∧ ((SystemResource.always ⟨200, .junk⟩).Create () sampleSystemPlan).Diagnostics
      = [⟨.error, "Parse Error"⟩]
    ∧ ((SystemResource.always ⟨200, .junk⟩).Create () sampleSystemPlan).State = .untouched := by
  refine ⟨?_, ?_, ?_, ?_, ?_, ?_, ?_, ?_⟩ <;> decide

/-- Decoding an object whose only `created_id` member is a string. -/
theorem decodeCreateResult_of_fieldValues (ms : List (String × Json)) (X : String)
    (h : fieldValues "created_id" ms = [.str X]) :
    decodeCreateResult (.obj ms) = ({ CreatedID := X }, false) := by
  simp [decodeCreateResult, h, decodeStringField]

/-- C9: when the POST of `SystemResource.Create` or of `AccessCardResource.Create` is answered
200 with a JSON object whose `created_id` member is the string `X`, the state is set to the
plan with id `X` and no error is added; when it is answered with another status, an error is
added and the state is not set. -/
theorem create_sets_created_id {σ : Type} (sys : SystemResource σ)
    (card : AccessCardResource σ) (w : σ) (sp : SystemModel) (cp : AccessCardModel) :
    (∀ q rs ms X, (sys.Create w sp).exchanges = [(q, .ok rs)] → rs.StatusCode = 200 →
      rs.Body = .doc (.obj ms) → fieldValues "created_id" ms = [.str X] →
      (sys.Create w sp).State = .set { sp with ID := .value X }
        ∧ HasError (sys.Create w sp).Diagnostics = false)
    ∧ (∀ q rs, (sys.Create w sp).exchanges = [(q, .ok rs)] → rs.StatusCode ≠ 200 →
      HasError (sys.Create w sp).Diagnostics = true ∧ (sys.Create w sp).State = .untouched)
    ∧ (∀ q rs ms X, (card.Create w cp).exchanges = [(q, .ok rs)] → rs.StatusCode = 200 →
      rs.Body = .doc (.obj ms) → fieldValues "created_id" ms = [.str X] →
      (card.Create w cp).State = .set { cp with ID := .value X }
        ∧ HasError (card.Create w cp).Diagnostics = false)
    ∧ (∀ q rs, (card.Create w cp).exchanges = [(q, .ok rs)] → rs.StatusCode ≠ 200 →
      HasError (card.Create w cp).Diagnostics = true
        ∧ (card.Create w cp).State = .untouched) := by
  refine ⟨?_, ?_, ?_, ?_⟩
  · intro q rs ms X hex h200 hbody hX
    have hdec := decodeCreateResult_of_fieldValues ms X hX
    rcases systemCreate_cases sys w sp _ rfl _ rfl with
      ⟨_, h⟩ | ⟨e, _, h⟩ | ⟨rs1, _, _, h⟩ | ⟨rs1, e, _, _, hp, h⟩ | ⟨rs1, _, _, hp, h⟩ <;>
      rw [h] at hex ⊢ <;> simp [HasError] at hex ⊢
    · simp_all
    · rw [hex.2, hbody] at hp
      simp [unmarshalCreateResult, unmarshalStruct, hdec] at hp
    · rw [hex.2, hbody]
      simp [unmarshalCreateResult, unmarshalStruct, hdec]
  · intro q rs hex hs
    rcases systemCreate_cases sys w sp _ rfl _ rfl with
      ⟨_, h⟩ | ⟨e, _, h⟩ | ⟨rs1, _, _, h⟩ | ⟨rs1, e, _, _, hp, h⟩ | ⟨rs1, _, _, hp, h⟩ <;>
      rw [h] at hex ⊢ <;> simp [HasError] at hex ⊢
    all_goals simp_all
  · intro q rs ms X hex h200 hbody hX
    have hdec := decodeCreateResult_of_fieldValues ms X hX
    rcases accessCardCreate_cases card w cp _ rfl _ rfl with
      ⟨_, h⟩ | ⟨e, _, h⟩ | ⟨rs1, _, _, h⟩ | ⟨rs1, _, _, h⟩ <;>
      rw [h] at hex ⊢ <;> simp [HasError] at hex ⊢
    · simp_all
    · rw [hex.2, hbody]
      simp [decodeCreateResultStream, decoderDecode, hdec]
  · intro q rs hex hs
    rcases accessCardCreate_cases card w cp _ rfl _ rfl with
      ⟨_, h⟩ | ⟨e, _, h⟩ | ⟨rs1, _, _, h⟩ | ⟨rs1, _, _, h⟩ <;>
      rw [h] at hex ⊢ <;> simp [HasError] at hex ⊢
    simp_all

/-- Concrete runs of C9: a POST answered 200 with `created_id` 42, and a POST answered 500. -/
theorem create_sets_created_id_witness :
    ((SystemResource.always ⟨200, createdBody⟩).Create () sampleSystemPlan).State
      = .set { sampleSystemPlan with ID := .value "42" }
    ∧ ((AccessCardResource.always ⟨200, createdBody⟩).Create () sampleCardPlan).State
      = .set { sampleCardPlan with ID := .value "42" }
    ∧ ((SystemResource.always ⟨500, .junk⟩).Create () sampleSystemPlan).State = .untouched
    ∧ HasError ((AccessCardResource.always ⟨500, .junk⟩).Create () sampleCardPlan).Diagnostics
      = true :=
  ⟨((create_sets_created_id (SystemResource.always ⟨200, createdBody⟩)
      (AccessCardResource.always ⟨200, createdBody⟩) () sampleSystemPlan sampleCardPlan).1
      ((SystemResource.always ⟨200, createdBody⟩).createRequest sampleSystemPlan)
      ⟨200, createdBody⟩ [("created_id", .str "42")] "42" rfl rfl rfl rfl).1,
   ((create_sets_created_id (SystemResource.always ⟨200, createdBody⟩)
      (AccessCardResource.always ⟨200, createdBody⟩) () sampleSystemPlan sampleCardPlan).2.2.1
      ((AccessCardResource.always ⟨200, createdBody⟩).createRequest sampleCardPlan)
      ⟨200, createdBody⟩ [("created_id", .str "42")] "42" rfl rfl rfl rfl).1,
   ((create_sets_created_id (SystemResource.always ⟨500, .junk⟩)
      (AccessCardResource.always ⟨500, .junk⟩) () sampleSystemPlan sampleCardPlan).2.1
      ((SystemResource.always ⟨500, .junk⟩).createRequest sampleSystemPlan)
      ⟨500, .junk⟩ rfl (by decide)).2,
   ((create_sets_created_id (SystemResource.always ⟨500, .junk⟩)
      (AccessCardResource.always ⟨500, .junk⟩) () sampleSystemPlan sampleCardPlan).2.2.2
      ((AccessCardResource.always ⟨500, .junk⟩).createRequest sampleCardPlan)
      ⟨500, .junk⟩ rfl (by decide)).1⟩

/-! ## The requests that are issued -/

/-- C10: every request that a handler of the three resources issues carries the header
`Authorization` with the value `Bearer` followed by the token of the resource, and has the
method and the URL of its operation under the base URL: POST `system`, GET `systems`, PUT and
DELETE `system/` followed by the id of the state; POST `access-card`, GET, PUT and DELETE
`access-card/` followed by the id of the state; POST `relation/access-card/` followed by the
access card id, `/system/` and the system id, GET `relations`, and DELETE `relation/`
followed by the id resolved from the answer to the list lookup. -/
theorem requests_carry_token_and_endpoint {σ : Type} (sys : SystemResource σ)
    (card : AccessCardResource σ) (rel : RelationACSResource σ) (w : σ)
    (sp ss : SystemModel) (cp cs : AccessCardModel) (rp rst : RelationACSTFModel) :
    baseURL = "https://integration.goodaccess.com/api/v1/"
    ∧ (∀ q ∈ (sys.Create w sp).requests,
      q.HeaderGet "Authorization" = some ("Bearer " ++ sys.token)
        ∧ q.Method = "POST" ∧ q.URL = baseURL ++ "system")
    ∧ (∀ q ∈ (sys.Read w ss).requests,
      q.HeaderGet "Authorization" = some ("Bearer " ++ sys.token)
        ∧ q.Method = "GET" ∧ q.URL = baseURL ++ "systems")
    ∧ (∀ q ∈ (sys.Update w sp ss).requests,
      q.HeaderGet "Authorization" = some ("Bearer " ++ sys.token)
        ∧ q.Method = "PUT" ∧ q.URL = baseURL ++ "system/" ++ ss.ID.ValueString)
    ∧ (∀ q ∈ (sys.Delete w ss).requests,
      q.HeaderGet "Authorization" = some ("Bearer " ++ sys.token)
        ∧ q.Method = "DELETE" ∧ q.URL = baseURL ++ "system/" ++ ss.ID.ValueString)
    ∧ (∀ q ∈ (card.Create w cp).requests,
      q.HeaderGet "Authorization" = some ("Bearer " ++ card.token)
        ∧ q.Method = "POST" ∧ q.URL = baseURL ++ "access-card")
    ∧ (∀ q ∈ (card.Read w cs).requests,
      q.HeaderGet "Authorization" = some ("Bearer " ++ card.token)
        ∧ q.Method = "GET" ∧ q.URL = baseURL ++ "access-card/" ++ cs.ID.ValueString)
    ∧ (∀ q ∈ (card.Update w cp cs).requests,
      q.HeaderGet "Authorization" = some ("Bearer " ++ card.token)
        ∧ q.Method = "PUT" ∧ q.URL = baseURL ++ "access-card/" ++ cs.ID.ValueString)
    ∧ (∀ q ∈ (card.Delete w cs).requests,
      q.HeaderGet "Authorization" = some ("Bearer " ++ card.token)
        ∧ q.Method = "DELETE" ∧ q.URL = baseURL ++ "access-card/" ++ cs.ID.ValueString)
    ∧ (∀ q ∈ (rel.Create w rp).requests,
      q.HeaderGet "Authorization" = some ("Bearer " ++ rel.token)
        ∧ q.Method = "POST"
        ∧ q.URL = baseURL ++ "relation/access-card/" ++ rp.AccessCardID.ValueString
            ++ "/system/" ++ rp.SystemID.ValueString)
    ∧ (∀ q ∈ (rel.Read w rst).requests,
      q.HeaderGet "Authorization" = some ("Bearer " ++ rel.token)
        ∧ q.Method = "GET" ∧ q.URL = baseURL ++ "relations")
    ∧ (rel.Update w rp rst).requests = []
    ∧ (∀ q ∈ (rel.Delete w rst).requests,
      q.HeaderGet "Authorization" = some ("Bearer " ++ rel.token)
        ∧ ((q.Method = "GET" ∧ q.URL = baseURL ++ "relations")
          ∨ (q.Method = "DELETE" ∧ ∃ q0 rs,
              (rel.Delete w rst).exchanges.head? = some (q0, .ok rs)
              ∧ q.URL = baseURL ++ "relation/" ++ RelationACSResource.resolveID rst rs.Body)))
    := by
  refine ⟨rfl, ?_, ?_, ?_, ?_, ?_, ?_, ?_, ?_, ?_, ?_, ?_, ?_⟩
  · intro q hq
    rcases systemCreate_cases sys w sp _ rfl _ rfl with
      ⟨_, h⟩ | ⟨e, _, h⟩ | ⟨rs1, _, _, h⟩ | ⟨rs1, e, _, _, _, h⟩ | ⟨rs1, _, _, _, h⟩ <;>
      rw [h] at hq <;> simp [Outcome.requests] at hq <;> subst hq <;>
      simp [SystemResource.createRequest, HttpRequest.HeaderGet, List.lookup]
  · intro q hq
    rcases systemRead_cases sys w ss _ rfl _ rfl with
      ⟨_, h⟩ | ⟨_, _, h⟩ | ⟨e, _, _, h⟩ | ⟨rs1, _, _, _, h⟩ | ⟨rs1, e, _, _, _, _, h⟩
        | ⟨rs1, s, _, _, _, _, _, h⟩ | ⟨rs1, _, _, _, _, _, h⟩ <;>
      rw [h] at hq <;> simp [Outcome.requests] at hq <;> subst hq <;>
      simp [SystemResource.readRequest, HttpRequest.HeaderGet, List.lookup]
  · intro q hq
    rcases systemUpdate_cases sys w sp ss _ rfl _ rfl with
      ⟨_, h⟩ | ⟨_, _, h⟩ | ⟨e, _, _, h⟩ | ⟨rs1, _, _, _, h⟩ | ⟨rs1, _, _, _, h⟩ <;>
      rw [h] at hq <;> simp [Outcome.requests] at hq <;> subst hq <;>
      simp [SystemResource.updateRequest, HttpRequest.HeaderGet, List.lookup]
  · intro q hq
    rcases systemDelete_cases sys w ss _ rfl _ rfl with
      ⟨_, h⟩ | ⟨_, _, h⟩ | ⟨e, _, _, h⟩ | ⟨rs1, _, _, _, h⟩ | ⟨rs1, _, _, _, h⟩ <;>
      rw [h] at hq <;> simp [Outcome.requests] at hq <;> subst hq <;>
      simp [SystemResource.deleteRequest, HttpRequest.HeaderGet, List.lookup]
  · intro q hq
    rcases accessCardCreate_cases card w cp _ rfl _ rfl with
      ⟨_, h⟩ | ⟨e, _, h⟩ | ⟨rs1, _, _, h⟩ | ⟨rs1, _, _, h⟩ <;>
      rw [h] at hq <;> simp [Outcome.requests] at hq <;> subst hq <;>
      simp [AccessCardResource.createRequest, HttpRequest.HeaderGet, List.lookup]
  · intro q hq
    rcases accessCardRead_cases card w cs _ rfl _ rfl with
      ⟨_, h⟩ | ⟨_, _, h⟩ | ⟨e, _, _, h⟩ | ⟨rs1, _, _, _, h⟩ | ⟨rs1, _, _, _, _, h⟩
        | ⟨rs1, e, _, _, _, _, h⟩ | ⟨rs1, _, _, _, _, h⟩ <;>
      rw [h] at hq <;> simp [Outcome.requests] at hq <;> subst hq <;>
      simp [AccessCardResource.readRequest, HttpRequest.HeaderGet, List.lookup]
  · intro q hq
    rcases accessCardUpdate_cases card w cp cs _ rfl _ rfl with
      ⟨_, h⟩ | ⟨_, _, h⟩ | ⟨e, _, _, h⟩ | ⟨rs1, _, _, _, h⟩ | ⟨rs1, _, _, _, h⟩ <;>
      rw [h] at hq <;> simp [Outcome.requests] at hq <;> subst hq <;>
      simp [AccessCardResource.updateRequest, HttpRequest.HeaderGet, List.lookup]
  · intro q hq
    rcases accessCardDelete_cases card w cs _ rfl _ rfl with
      ⟨_, h⟩ | ⟨_, _, h⟩ | ⟨e, _, _, h⟩ | ⟨rs1, _, _, _, h⟩ | ⟨rs1, _, _, _, h⟩ <;>
      rw [h] at hq <;> simp [Outcome.requests] at hq <;> subst hq <;>
      simp [AccessCardResource.deleteRequest, HttpRequest.HeaderGet, List.lookup]
  · intro q hq
    rcases relationCreate_cases rel w rp _ rfl _ rfl with
      ⟨_, h⟩ | ⟨e, _, h⟩ | ⟨rs1, _, _, h⟩ | ⟨rs1, _, _, h⟩ <;>
      rw [h] at hq <;> simp [Outcome.requests] at hq <;> subst hq <;>
      simp [RelationACSResource.createRequest, HttpRequest.HeaderGet, List.lookup]
  · intro q hq
    rcases relationRead_cases rel w rst _ rfl _ rfl with
      ⟨_, h⟩ | ⟨e, _, h⟩ | ⟨rs1, _, _, h⟩ | ⟨rs1, x, _, _, _, h⟩ | ⟨rs1, _, _, _, h⟩ <;>
      rw [h] at hq <;> simp [Outcome.requests] at hq <;> subst hq <;>
      simp [RelationACSResource.listRequest, HttpRequest.HeaderGet, List.lookup]
  · simp [RelationACSResource.Update, Outcome.requests]
  · intro q hq
    rcases relationDelete_cases rel w rst _ rfl _ rfl with
      ⟨_, h⟩ | ⟨e, _, h⟩ | ⟨rs1, _, _, h⟩ | ⟨rs1, _, _, _, h⟩ | ⟨rs1, e, _, _, _, h⟩
        | ⟨rs1, rs2, _, _, _, _, h⟩ | ⟨rs1, rs2, _, _, _, _, h⟩ <;>
      rw [h] at hq ⊢ <;> simp [Outcome.requests] at hq ⊢
    all_goals
      rcases hq with rfl | rfl <;>
        simp [RelationACSResource.listRequest, RelationACSResource.deleteRequest,
          HttpRequest.HeaderGet, List.lookup]
    all_goals exact ⟨_, _, ⟨rfl, rfl⟩, rfl⟩

/-! ## Read on other statuses, and handlers without an id -/

/-- C11: when the GET of `Read` is answered with a status that is neither 200 nor 404, the
handler adds an error diagnostic and neither sets nor removes the state, for each of the
three resources. -/
theorem read_other_status_is_error {σ : Type} (sys : SystemResource σ)
    (card : AccessCardResource σ) (rel : RelationACSResource σ) (w : σ)
    (ss : SystemModel) (cs : AccessCardModel) (rst : RelationACSTFModel)
    (q : HttpRequest) (rs : HttpResponse)
    (h200 : rs.StatusCode ≠ 200) (h404 : rs.StatusCode ≠ 404) :
    ((sys.Read w ss).exchanges = [(q, .ok rs)] →
      HasError (sys.Read w ss).Diagnostics = true ∧ (sys.Read w ss).State = .untouched)
    ∧ ((card.Read w cs).exchanges = [(q, .ok rs)] →
      HasError (card.Read w cs).Diagnostics = true ∧ (card.Read w cs).State = .untouched)
    ∧ ((rel.Read w rst).exchanges = [(q, .ok rs)] →
      HasError (rel.Read w rst).Diagnostics = true ∧ (rel.Read w rst).State = .untouched) := by
  refine ⟨?_, ?_, ?_⟩
  · intro hex
    rcases systemRead_cases sys w ss _ rfl _ rfl with
      ⟨_, h⟩ | ⟨_, _, h⟩ | ⟨e, _, _, h⟩ | ⟨rs1, _, _, _, h⟩ | ⟨rs1, e, _, _, _, _, h⟩
        | ⟨rs1, s, _, _, _, _, _, h⟩ | ⟨rs1, _, _, _, _, _, h⟩ <;>
      rw [h] at hex ⊢ <;> simp [HasError] at hex ⊢
    all_goals simp_all
  · intro hex
    rcases accessCardRead_cases card w cs _ rfl _ rfl with
      ⟨_, h⟩ | ⟨_, _, h⟩ | ⟨e, _, _, h⟩ | ⟨rs1, _, _, _, h⟩ | ⟨rs1, _, _, _, _, h⟩
        | ⟨rs1, e, _, _, _, _, h⟩ | ⟨rs1, _, _, _, _, h⟩ <;>
      rw [h] at hex ⊢ <;> simp [HasError] at hex ⊢
    all_goals simp_all
  · intro hex
    rcases relationRead_cases rel w rst _ rfl _ rfl with
      ⟨_, h⟩ | ⟨e, _, h⟩ | ⟨rs1, _, _, h⟩ | ⟨rs1, x, _, _, _, h⟩ | ⟨rs1, _, _, _, h⟩ <;>
      rw [h] at hex ⊢ <;> simp [HasError] at hex ⊢
    all_goals simp_all

/-- A backend that answers 500 to each of the three `Read` handlers. -/
theorem read_other_status_is_error_witness :
    (500 : Nat) ≠ 200 ∧ (500 : Nat) ≠ 404
    ∧ ((SystemResource.always ⟨500, .junk⟩).Read () sampleSystem).State = .untouched
    ∧ HasError ((AccessCardResource.always ⟨500, .junk⟩).Read () sampleCard).Diagnostics = true
    ∧ ((RelationACSResource.always ⟨500, .junk⟩).Read () sampleRelation).State
      = .untouched :=
  ⟨by decide, by decide,
   ((read_other_status_is_error (SystemResource.always ⟨500, .junk⟩)
      (AccessCardResource.always ⟨500, .junk⟩) (RelationACSResource.always ⟨500, .junk⟩) ()
      sampleSystem sampleCard sampleRelation
      (SystemResource.always ⟨500, .junk⟩).readRequest ⟨500, .junk⟩
      (by decide) (by decide)).1 rfl).2,
   ((read_other_status_is_error (SystemResource.always ⟨500, .junk⟩)
      (AccessCardResource.always ⟨500, .junk⟩) (RelationACSResource.always ⟨500, .junk⟩) ()
      sampleSystem sampleCard sampleRelation
      ((AccessCardResource.always ⟨500, .junk⟩).readRequest sampleCard) ⟨500, .junk⟩
      (by decide) (by decide)).2.1 rfl).1,
   ((read_other_status_is_error (SystemResource.always ⟨500, .junk⟩)
      (AccessCardResource.always ⟨500, .junk⟩) (RelationACSResource.always ⟨500, .junk⟩) ()
      sampleSystem sampleCard sampleRelation
      (RelationACSResource.always ⟨500, .junk⟩).listRequest ⟨500, .junk⟩
      (by decide) (by decide)).2.2 rfl).2⟩

/-- C13: when the id of the prior state is empty, that is when `ValueString` gives the empty
string as it does for a null id and for the id `""`, then `Read`, `Update` and `Delete` of
`SystemResource` and of `AccessCardResource` add an error diagnostic, issue no HTTP request
and leave the state untouched. -/
theorem empty_id_is_refused_without_request {σ : Type} (sys : SystemResource σ)
    (card : AccessCardResource σ) (w : σ) (sp ss : SystemModel) (cp cs : AccessCardModel)
    (hs : ss.ID.ValueString = "") (hc : cs.ID.ValueString = "") :
    TFString.null.ValueString = "" ∧ (TFString.value "").ValueString = ""
    ∧ (HasError (sys.Read w ss).Diagnostics = true ∧ (sys.Read w ss).exchanges = []
        ∧ (sys.Read w ss).State = .untouched)
    ∧ (HasError (sys.Update w sp ss).Diagnostics = true ∧ (sys.Update w sp ss).exchanges = []
        ∧ (sys.Update w sp ss).State = .untouched)
    ∧ (HasError (sys.Delete w ss).Diagnostics = true ∧ (sys.Delete w ss).exchanges = []
        ∧ (sys.Delete w ss).State = .untouched)
    ∧ (HasError (card.Read w cs).Diagnostics = true ∧ (card.Read w cs).exchanges = []
        ∧ (card.Read w cs).State = .untouched)
    ∧ (HasError (card.Update w cp cs).Diagnostics = true ∧ (card.Update w cp cs).exchanges = []
        ∧ (card.Update w cp cs).State = .untouched)
    ∧ (HasError (card.Delete w cs).Diagnostics = true ∧ (card.Delete w cs).exchanges = []
        ∧ (card.Delete w cs).State = .untouched) := by
  refine ⟨rfl, rfl, ?_, ?_, ?_, ?_, ?_, ?_⟩
  · simp [SystemResource.Read, hs, HasError]
  · simp [SystemResource.Update, hs, HasError]
  · simp [SystemResource.Delete, hs, HasError]
  · simp [AccessCardResource.Read, hc, HasError]
  · simp [AccessCardResource.Update, hc, HasError]
  · simp [AccessCardResource.Delete, hc, HasError]

/-- A system whose id in state is null and an access card whose id in state is `""`, against
a backend that would answer 200. -/
theorem empty_id_is_refused_without_request_witness :
    ({ sampleSystem with ID := .null } : SystemModel).ID.ValueString = ""
    ∧ ({ sampleCard with ID := .value "" } : AccessCardModel).ID.ValueString = ""
    ∧ ((SystemResource.always ⟨200, .junk⟩).Delete () { sampleSystem with ID := .null }).exchanges
      = []
    ∧ HasError ((AccessCardResource.always ⟨200, .junk⟩).Update () sampleCardPlan
        { sampleCard with ID := .value "" }).Diagnostics = true :=
  ⟨rfl, rfl,
   (empty_id_is_refused_without_request (SystemResource.always ⟨200, .junk⟩)
      (AccessCardResource.always ⟨200, .junk⟩) () sampleSystemPlan
      { sampleSystem with ID := .null } sampleCardPlan { sampleCard with ID := .value "" }
      rfl rfl).2.2.2.2.1.2.1,
   (empty_id_is_refused_without_request (SystemResource.always ⟨200, .junk⟩)
      (AccessCardResource.always ⟨200, .junk⟩) () sampleSystemPlan
      { sampleSystem with ID := .null } sampleCardPlan { sampleCard with ID := .value "" }
      rfl rfl).2.2.2.2.2.2.1.1⟩

/-! ## Delete of a relation by its resolved id -/

/-- The relation id that `Delete` resolves is the id of the first record, in list order, that
has the state's two keys. -/
theorem resolveID_of_first_match (state : RelationACSTFModel) (body : Body)
    (pre post : List RelationRecord) (x : RelationRecord)
    (hlist : (unmarshalRelations body).1 = pre ++ x :: post)
    (hpre : ∀ y ∈ pre,
      ¬ (y.AccessCardID = state.AccessCardID.ValueString
          ∧ y.SystemID = state.SystemID.ValueString))
    (hx : x.AccessCardID = state.AccessCardID.ValueString
      ∧ x.SystemID = state.SystemID.ValueString) :
    RelationACSResource.resolveID state body = x.ID := by
  have hf : ((unmarshalRelations body).1).find? (relationMatches state) = some x := by
    rw [hlist]
    clear hlist
    induction pre with
    | nil => simp [relationMatches, hx.1, hx.2]
    | cons y ys ih =>
      have hy : relationMatches state y = false := by
        have := hpre y (List.mem_cons_self _ _)
        simpa [relationMatches] using this
      simp only [List.cons_append, List.find?_cons, hy]
      exact ih (fun z hz => hpre z (List.mem_cons_of_mem _ hz))
  simp [RelationACSResource.resolveID, hf]

/-- C12 as stated fails: the relations list holds two records for the pair of the state, the
first with an empty id. `RelationACSResource.Delete` sends the list lookup only, no DELETE,
and adds the warning `Not Found`. -/
theorem relation_delete_skips_empty_id :
    (unmarshalRelations emptyIDRelationsBody).1
      = [⟨"", "ac1", "sys1"⟩, ⟨"78", "ac1", "sys1"⟩]
    ∧ sampleRelation.AccessCardID.ValueString = "ac1"
    ∧ sampleRelation.SystemID.ValueString = "sys1"
    ∧ (((RelationACSResource.always ⟨200, emptyIDRelationsBody⟩).Delete ()
        sampleRelation).requests.map (fun q => q.Method)) = ["GET"]
    ∧ ((RelationACSResource.always ⟨200, emptyIDRelationsBody⟩).Delete ()
        sampleRelation).Diagnostics = [⟨.warning, "Not Found"⟩] := by
  refine ⟨?_, ?_, ?_, ?_, ?_⟩ <;> decide

/-- C12 amended: the list lookup of `RelationACSResource.Delete` was answered with a list in
which some record has the state's two keys. When the first such record in list order has a
non-empty id and `http.NewRequest` accepts the URL made from that id, the handler sends one
more request, a DELETE to `relation/` followed by that id; it adds no diagnostic when that
DELETE is answered 200 and an error diagnostic when it is answered with another status. When
the first such record has an empty id, the handler sends nothing after the list lookup and
adds the warning `Not Found`. -/
theorem relation_delete_targets_first_match {σ : Type} (rel : RelationACSResource σ) (w : σ)
    (rst : RelationACSTFModel) (q0 : HttpRequest) (rs : HttpResponse)
    (pre post : List RelationRecord) (x : RelationRecord)
    (hex : (rel.Delete w rst).exchanges.head? = some (q0, .ok rs))
    (hlist : (unmarshalRelations rs.Body).1 = pre ++ x :: post)
    (hpre : ∀ y ∈ pre,
      ¬ (y.AccessCardID = rst.AccessCardID.ValueString
          ∧ y.SystemID = rst.SystemID.ValueString))
    (hx : x.AccessCardID = rst.AccessCardID.ValueString
      ∧ x.SystemID = rst.SystemID.ValueString) :
    (x.ID ≠ "" → rel.client.urlParses (baseURL ++ "relation/" ++ x.ID) = true →
      ∃ qd res, (rel.Delete w rst).exchanges = [(q0, .ok rs), (qd, res)]
        ∧ qd.Method = "DELETE" ∧ qd.URL = baseURL ++ "relation/" ++ x.ID
        ∧ (∀ rs2, res = .ok rs2 → rs2.StatusCode = 200 → (rel.Delete w rst).Diagnostics = [])
        ∧ (∀ rs2, res = .ok rs2 → rs2.StatusCode ≠ 200 →
            HasError (rel.Delete w rst).Diagnostics = true))
    ∧ (x.ID = "" →
      (rel.Delete w rst).exchanges = [(q0, .ok rs)]
        ∧ (rel.Delete w rst).Diagnostics = [⟨.warning, "Not Found"⟩]) := by
  have hres := resolveID_of_first_match rst rs.Body pre post x hlist hpre hx
  refine ⟨fun hid hurl => ?_, fun hid => ?_⟩
  · rcases relationDelete_cases rel w rst _ rfl _ rfl with
      ⟨_, h⟩ | ⟨e, _, h⟩ | ⟨rs1, _, he, h⟩ | ⟨rs1, _, _, hu, h⟩ | ⟨rs1, e, _, _, _, h⟩
        | ⟨rs1, rs2, _, _, _, hs2, h⟩ | ⟨rs1, rs2, _, _, _, hs2, h⟩ <;>
      rw [h] at hex ⊢ <;> simp at hex
    · rw [hex.2, hres] at he
      exact absurd he hid
    · rw [hex.2, hres] at hu
      simp [RelationACSResource.deleteRequest, hurl] at hu
    · obtain ⟨rfl, rfl⟩ := hex
      refine ⟨rel.deleteRequest x.ID, .error e, by rw [hres], rfl, rfl, ?_, ?_⟩
      · intro rs3 h3
        cases h3
      · intro rs3 h3
        cases h3
    · obtain ⟨rfl, rfl⟩ := hex
      refine ⟨rel.deleteRequest x.ID, .ok rs2, by rw [hres], rfl, rfl, ?_, ?_⟩
      · intro rs3 h3 h200
        cases h3
        exact absurd h200 hs2
      · intro rs3 h3 _
        simp [HasError]
    · obtain ⟨rfl, rfl⟩ := hex
      refine ⟨rel.deleteRequest x.ID, .ok rs2, by rw [hres], rfl, rfl, ?_, ?_⟩
      · intro rs3 h3 _
        rfl
      · intro rs3 h3 hne
        cases h3
        exact absurd hs2 hne
  · rw [hid] at hres
    rcases relationDelete_cases rel w rst _ rfl _ rfl with
      ⟨_, h⟩ | ⟨e, _, h⟩ | ⟨rs1, _, he, h⟩ | ⟨rs1, _, hne, _, h⟩ | ⟨rs1, e, _, hne, _, h⟩
        | ⟨rs1, rs2, _, hne, _, _, h⟩ | ⟨rs1, rs2, _, hne, _, _, h⟩ <;>
      rw [h] at hex ⊢ <;> simp at hex
    · obtain ⟨rfl, rfl⟩ := hex
      exact ⟨rfl, rfl⟩
    all_goals exact absurd (by rw [hex.2]; exact hres) hne

/-- Two runs of C12. A list whose second record is the first one for the pair: the DELETE
goes to its id, 77, and, answered 200, leaves no diagnostic. A list whose first record for
the pair has an empty id: only the list lookup is sent and the warning is added. -/
theorem relation_delete_targets_first_match_witness :
    (∃ qd res,
      ((RelationACSResource.always ⟨200, mixedRelationsBody⟩).Delete () sampleRelation).exchanges
        = [((RelationACSResource.always ⟨200, mixedRelationsBody⟩).listRequest,
            .ok ⟨200, mixedRelationsBody⟩), (qd, res)]
      ∧ qd.Method = "DELETE" ∧ qd.URL = baseURL ++ "relation/" ++ "77"
      ∧ (∀ rs2, res = .ok rs2 → rs2.StatusCode = 200 →
          ((RelationACSResource.always ⟨200, mixedRelationsBody⟩).Delete ()
            sampleRelation).Diagnostics = [])
      ∧ (∀ rs2, res = .ok rs2 → rs2.StatusCode ≠ 200 →
          HasError ((RelationACSResource.always ⟨200, mixedRelationsBody⟩).Delete ()
            sampleRelation).Diagnostics = true))
    ∧ ((RelationACSResource.always ⟨200, emptyIDRelationsBody⟩).Delete ()
        sampleRelation).exchanges
        = [((RelationACSResource.always ⟨200, emptyIDRelationsBody⟩).listRequest,
            .ok ⟨200, emptyIDRelationsBody⟩)]
    ∧ ((RelationACSResource.always ⟨200, emptyIDRelationsBody⟩).Delete ()
        sampleRelation).Diagnostics = [⟨.warning, "Not Found"⟩] :=
  ⟨(relation_delete_targets_first_match (RelationACSResource.always ⟨200, mixedRelationsBody⟩)
      () sampleRelation (RelationACSResource.always ⟨200, mixedRelationsBody⟩).listRequest
      ⟨200, mixedRelationsBody⟩ [⟨"78", "ac1", "sys2"⟩] [⟨"79", "ac1", "sys1"⟩]
      ⟨"77", "ac1", "sys1"⟩ rfl (by decide) (by decide) (by decide)).1 (by decide) rfl,
   (relation_delete_targets_first_match
      (RelationACSResource.always ⟨200, emptyIDRelationsBody⟩)
      () sampleRelation (RelationACSResource.always ⟨200, emptyIDRelationsBody⟩).listRequest
      ⟨200, emptyIDRelationsBody⟩ [] [⟨"78", "ac1", "sys1"⟩]
      ⟨"", "ac1", "sys1"⟩ rfl (by decide) (by decide) (by decide)).2 rfl⟩

/-! ## The synthetic id determines its keys -/

/-- A list is split in one way only around the first occurrence of an element. -/
theorem split_at_first_unique {α : Type} (c : α) (l1 l2 r1 r2 : List α)
    (h1 : c ∉ l1) (h2 : c ∉ l2) (h : l1 ++ c :: r1 = l2 ++ c :: r2) :
    l1 = l2 ∧ r1 = r2 := by
  induction l1 generalizing l2 with
  | nil =>
    cases l2 with
    | nil => simpa using h
    | cons b bs =>
      simp only [List.nil_append, List.cons_append, List.cons.injEq] at h
      exact absurd (List.mem_cons_self _ _) (h.1 ▸ h2)
  | cons a as ih =>
    cases l2 with
    | nil =>
      simp only [List.nil_append, List.cons_append, List.cons.injEq] at h
      exact absurd (List.mem_cons_self _ _) (h.1 ▸ h1)
    | cons b bs =>
      simp only [List.cons_append, List.cons.injEq] at h
      have := ih bs (fun hm => h1 (List.mem_cons_of_mem _ hm))
        (fun hm => h2 (List.mem_cons_of_mem _ hm)) h.2
      exact ⟨by rw [h.1, this.1], this.2⟩

/-- The id of a state that `RelationACSResource.Create` sets is the synthetic id of the two
keys of the plan. -/
theorem relationCreate_state_id {σ : Type} (r : RelationACSResource σ) (w : σ)
    (data m : RelationACSTFModel) (hm : (r.Create w data).State = .set m) :
    m.ID = .value (syntheticID data.AccessCardID.ValueString data.SystemID.ValueString) := by
  rcases relationCreate_cases r w data _ rfl _ rfl with
    ⟨_, h⟩ | ⟨e, _, h⟩ | ⟨rs, _, _, h⟩ | ⟨rs, _, _, h⟩ <;> rw [h] at hm <;> simp at hm
  rw [← hm]
  rfl

/-- C14: when neither access card id contains a colon, the synthetic relation id determines
the pair of keys it was made from: equal ids come from equal access card ids and equal
system ids. The same holds of the ids that `RelationACSResource.Create` writes to state. -/
theorem synthetic_id_determines_keys {σ : Type} (r : RelationACSResource σ) (w : σ)
    (a1 s1 a2 s2 : String) (h1 : ':' ∉ a1.data) (h2 : ':' ∉ a2.data) :
    (a1 ++ ":" ++ s1 = a2 ++ ":" ++ s2 → a1 = a2 ∧ s1 = s2)
    ∧ (syntheticID a1 s1 = syntheticID a2 s2 → a1 = a2 ∧ s1 = s2)
    ∧ (∀ id1 id2 m1 m2,
        (r.Create w ⟨id1, .value a1, .value s1⟩).State = .set m1 →
        (r.Create w ⟨id2, .value a2, .value s2⟩).State = .set m2 →
        m1.ID = m2.ID → a1 = a2 ∧ s1 = s2) := by
  have key : a1 ++ ":" ++ s1 = a2 ++ ":" ++ s2 → a1 = a2 ∧ s1 = s2 := by
    intro h
    have hd := congrArg String.data h
    simp only [String.data_append] at hd
    simp only [List.append_assoc, List.singleton_append] at hd
    have := split_at_first_unique ':' a1.data a2.data s1.data s2.data h1 h2 hd
    exact ⟨String.ext this.1, String.ext this.2⟩
  refine ⟨key, key, ?_⟩
  intro id1 id2 m1 m2 hm1 hm2 hid
  have e1 := relationCreate_state_id r w ⟨id1, .value a1, .value s1⟩ m1 hm1
  have e2 := relationCreate_state_id r w ⟨id2, .value a2, .value s2⟩ m2 hm2
  rw [e1, e2] at hid
  exact key (TFString.value.inj hid)

/-- Two ids with a colon in the system id: the access card ids have none, and the keys are
recovered. -/
theorem synthetic_id_determines_keys_witness :
    ':' ∉ "ac1".data ∧ ':' ∉ "ac1".data
    ∧ (syntheticID "ac1" "sys:1" = syntheticID "ac1" "sys:1" →
        "ac1" = "ac1" ∧ "sys:1" = "sys:1") :=
  ⟨by decide, by decide,
   (synthetic_id_determines_keys (RelationACSResource.always ⟨200, .junk⟩) ()
      "ac1" "sys:1" "ac1" "sys:1" (by decide) (by decide)).2.1⟩

end GoodAccess
